import Mathlib

/-!
Verification development for the FloatChat natural-language-to-SQL pipeline.

The Python sources under `core/`, `mcp/` and `database/` are shallowly
embedded below.  Strings are lists of characters (`Str`); Python's
substring test, `upper`/`lower`, `strip`, `split` and `join` are given
executable models, together with the occurrence lemmas that the safety
proofs about generated SQL need.  External collaborators (the language
model client, the retrieval subsystem, the storage client and the wall
clock) are passed in as explicit oracle functions, exactly at the call
boundaries the code uses.
-/

set_option maxRecDepth 20000

attribute [local semireducible] Rat.add Rat.mul Rat.sub Rat.inv

abbrev Str := List Char

/-- Model of Python `str.upper` (the code base only manipulates ASCII). -/
def pyUpper (s : Str) : Str := s.map Char.toUpper

/-- Model of Python `str.lower`. -/
def pyLower (s : Str) : Str := s.map Char.toLower

/-- Model of Python's substring test `needle in hay`. -/
def isSubstr (needle : Str) : Str → Bool
  | [] => needle.isPrefixOf []
  | c :: rest => needle.isPrefixOf (c :: rest) || isSubstr needle rest

theorem isSubstr_iff (n h : Str) : isSubstr n h = true ↔ n <:+: h := by
  induction h with
  | nil =>
    simp [isSubstr, List.isPrefixOf_iff_prefix]
  | cons c t ih =>
    rw [List.infix_cons_iff]
    simp [isSubstr, List.isPrefixOf_iff_prefix, ih]

/-- Python whitespace characters (the `\s` class over ASCII, and the
characters removed by `str.strip`). -/
def isPySpace (c : Char) : Bool :=
  c == ' ' || c == '\t' || c == '\n' || c == '\r' || c == '\x0b' || c == '\x0c'

/-- Model of Python `str.strip()` (no arguments: strip whitespace). -/
def pyStrip (s : Str) : Str :=
  ((s.dropWhile isPySpace).reverse.dropWhile isPySpace).reverse

/-- Model of Python `str.strip(chars)`. -/
def pyStripChars (chars : Str) (s : Str) : Str :=
  ((s.dropWhile (chars.contains ·)).reverse.dropWhile (chars.contains ·)).reverse

/-- Model of Python `sep.join(parts)`. -/
def pyJoin (sep : Str) : List Str → Str
  | [] => []
  | [x] => x
  | x :: y :: xs => x ++ sep ++ pyJoin sep (y :: xs)

theorem infixOfPre {α : Type} {a b : List α} (h : a <+: b) : a <:+: b :=
  List.IsPrefix.isInfix h

theorem infixOfSuf {α : Type} {a b : List α} (h : a <:+ b) : a <:+: b :=
  List.IsSuffix.isInfix h

theorem takePre {α : Type} (n : ℕ) (l : List α) : l.take n <+: l :=
  List.take_prefix n l

theorem dropSuf {α : Type} (n : ℕ) (l : List α) : l.drop n <:+ l :=
  List.drop_suffix n l

theorem takeWhilePre {α : Type} (p : α → Bool) (l : List α) : l.takeWhile p <+: l :=
  List.takeWhile_prefix p

theorem dropWhileSuf {α : Type} (p : α → Bool) (l : List α) : l.dropWhile p <:+ l :=
  List.dropWhile_suffix p

theorem substr_append_left {p u : Str} (v : Str) (h : p <:+: u) : p <:+: u ++ v := by
  obtain ⟨a, b, rfl⟩ := h
  exact ⟨a, b ++ v, by simp⟩

theorem substr_append_right {p v : Str} (u : Str) (h : p <:+: v) : p <:+: u ++ v := by
  obtain ⟨a, b, rfl⟩ := h
  exact ⟨u ++ a, b, by simp⟩

theorem exists_mem_of_ne_nil {p : Str} (h : p ≠ []) : ∃ c, c ∈ p := by
  cases p with
  | nil => exact absurd rfl h
  | cons c t => exact ⟨c, List.mem_cons_self c t⟩

/-- An occurrence of `p` inside `u ++ v` lies inside `u`, inside `v`, or
spans the junction, in which case the last character of `u` and the first
character of `v` both belong to `p`. -/
theorem substr_append_cases {p u v : Str} (h : p <:+: u ++ v) :
    p <:+: u ∨ p <:+: v ∨
      ((∃ c, u.getLast? = some c ∧ c ∈ p) ∧ (∃ c, v.head? = some c ∧ c ∈ p)) := by
  obtain ⟨x, y, hxy⟩ := h
  have hxy' : u ++ v = x ++ (p ++ y) := by rw [← hxy, List.append_assoc]
  have hdropi : (u ++ v).drop x.length = p ++ y := by
    rw [hxy', List.drop_left]
  have hlen : u.length + v.length = x.length + (p.length + y.length) := by
    have := congrArg List.length hxy'
    simpa using this
  by_cases hA : x.length + p.length ≤ u.length
  · left
    have h1 : (u ++ v).drop x.length = u.drop x.length ++ v :=
      List.drop_append_of_le_length (by omega)
    have h2 : ((u ++ v).drop x.length).take p.length = p := by
      rw [hdropi, List.take_left]
    rw [h1] at h2
    rw [List.take_append_of_le_length (by simp; omega)] at h2
    have hpre : p <+: u.drop x.length := by
      rw [List.prefix_iff_eq_take, h2]
    exact List.IsInfix.trans (infixOfPre hpre) (infixOfSuf (dropSuf _ _))
  · by_cases hB : u.length ≤ x.length
    · right; left
      have hsplit : x.length = u.length + (x.length - u.length) := by omega
      have h1 : (u ++ v).drop x.length = v.drop (x.length - u.length) := by
        conv_lhs => rw [hsplit]
        rw [List.drop_append]
      have h2 : v.drop (x.length - u.length) = p ++ y := by rw [← h1, hdropi]
      have hpre : p <+: v.drop (x.length - u.length) := ⟨y, h2.symm⟩
      exact List.IsInfix.trans (infixOfPre hpre) (infixOfSuf (dropSuf _ _))
    · right; right
      have hxu : x.length < u.length := by omega
      have hup : u.length < x.length + p.length := by omega
      have hvlen : 0 < v.length := by omega
      have key : ∀ j, x.length ≤ j → j < x.length + p.length →
          ∃ (hjl : j < (u ++ v).length) (hpl : j - x.length < p.length),
            (u ++ v).get ⟨j, hjl⟩ = p.get ⟨j - x.length, hpl⟩ := by
        intro j hj1 hj2
        have hjl : j < (u ++ v).length := by
          rw [List.length_append]; omega
        have hpl : j - x.length < p.length := by omega
        refine ⟨hjl, hpl, ?_⟩
        have hjl2 : j < (x ++ (p ++ y)).length := by rw [← hxy']; exact hjl
        have e1 : (u ++ v).get ⟨j, hjl⟩ = (x ++ (p ++ y)).get ⟨j, hjl2⟩ :=
          List.getElem_of_eq hxy' hjl
        rw [e1]
        simp only [List.get_eq_getElem]
        rw [List.getElem_append_right hj1, List.getElem_append_left hpl]
      constructor
      · obtain ⟨hjl, hpl, hE⟩ := key (u.length - 1) (by omega) (by omega)
        have hju : u.length - 1 < u.length := by omega
        have e2 : (u ++ v).get ⟨u.length - 1, hjl⟩ = u.get ⟨u.length - 1, hju⟩ :=
          List.getElem_append_left hju
        refine ⟨u.get ⟨u.length - 1, hju⟩, ?_, ?_⟩
        · rw [List.getLast?_eq_getElem?]
          exact List.getElem?_eq_getElem hju
        · rw [← e2, hE]
          exact List.getElem_mem hpl
      · obtain ⟨hjl, hpl, hE⟩ := key u.length (by omega) (by omega)
        have e2 : (u ++ v).get ⟨u.length, hjl⟩ = v.get ⟨0, hvlen⟩ := by
          simp only [List.get_eq_getElem]
          rw [List.getElem_append_right (Nat.le_refl _)]
          simp
        refine ⟨v.get ⟨0, hvlen⟩, ?_, ?_⟩
        · rw [List.head?_eq_getElem?]
          exact List.getElem?_eq_getElem hvlen
        · rw [← e2, hE]
          exact List.getElem_mem hpl

theorem mem_of_headq {α : Type} {c : α} {l : List α} (h : l.head? = some c) : c ∈ l := by
  cases l with
  | nil => simp at h
  | cons a t =>
    simp at h
    subst h
    exact List.mem_cons_self _ _

theorem mem_of_getLastq {α : Type} {c : α} {l : List α} (h : l.getLast? = some c) : c ∈ l := by
  rw [List.getLast?_eq_getElem?] at h
  cases l with
  | nil => simp at h
  | cons a t =>
    have hlt : (a :: t).length - 1 < (a :: t).length := by simp
    rw [List.getElem?_eq_getElem hlt] at h
    have := List.getElem_mem hlt
    simp [← Option.some_inj.mp h]

/-- Decomposition used by the `strip` lemmas: a string is an all-whitespace
prefix, its stripped core, and an all-whitespace suffix. -/
theorem pyStrip_decomp (s : Str) :
    ∃ pre suf, s = pre ++ pyStrip s ++ suf ∧
      (∀ c ∈ pre, isPySpace c = true) ∧ (∀ c ∈ suf, isPySpace c = true) := by
  refine ⟨s.takeWhile isPySpace, ((s.dropWhile isPySpace).reverse.takeWhile isPySpace).reverse,
    ?_, ?_, ?_⟩
  · conv_lhs => rw [← List.takeWhile_append_dropWhile isPySpace s]
    rw [List.append_assoc]
    congr 1
    conv_lhs => rw [← List.reverse_reverse (s.dropWhile isPySpace),
      ← List.takeWhile_append_dropWhile isPySpace (s.dropWhile isPySpace).reverse]
    rw [List.reverse_append]
    rfl
  · intro c hc
    exact List.mem_takeWhile_imp hc
  · intro c hc
    rw [List.mem_reverse] at hc
    exact List.mem_takeWhile_imp hc

theorem strip_substr_self (s : Str) : pyStrip s <:+: s := by
  obtain ⟨pre, suf, he, _, _⟩ := pyStrip_decomp s
  exact ⟨pre, suf, by rw [← he]⟩

/-- A nonempty whitespace-free substring survives `strip`. -/
theorem substr_pyStrip {p s : Str} (hne : p ≠ []) (hws : ∀ c ∈ p, isPySpace c = false)
    (h : p <:+: s) : p <:+: pyStrip s := by
  obtain ⟨pre, suf, he, hpre, hsuf⟩ := pyStrip_decomp s
  rw [he, List.append_assoc] at h
  have hwsne : ∀ c ∈ p, c ∈ pre ∨ c ∈ suf → False := by
    intro c hcp hor
    have hf := hws c hcp
    cases hor with
    | inl hin => rw [hpre c hin] at hf; simp at hf
    | inr hin => rw [hsuf c hin] at hf; simp at hf
  rcases substr_append_cases h with h1 | h2 | ⟨⟨c, hc, hcp⟩, _⟩
  · obtain ⟨c, hcp⟩ := exists_mem_of_ne_nil hne
    exact absurd (Or.inl (List.IsInfix.subset h1 hcp)) (by intro hx; exact hwsne c hcp hx)
  · rcases substr_append_cases h2 with h3 | h4 | ⟨_, ⟨c, hc, hcp⟩⟩
    · exact h3
    · obtain ⟨c, hcp⟩ := exists_mem_of_ne_nil hne
      exact absurd (Or.inr (List.IsInfix.subset h4 hcp)) (by intro hx; exact hwsne c hcp hx)
    · exact absurd (Or.inr (mem_of_headq hc)) (by intro hx; exact hwsne c hcp hx)
  · exact absurd (Or.inl (mem_of_getLastq hc)) (by intro hx; exact hwsne c hcp hx)

theorem pyUpper_append (u v : Str) : pyUpper (u ++ v) = pyUpper u ++ pyUpper v :=
  List.map_append _ _ _

theorem substr_pyUpper {p s : Str} (h : p <:+: s) : pyUpper p <:+: pyUpper s :=
  List.IsInfix.map _ h

/-- Characters that can occur in one of the guarded SQL keywords: uppercase
ASCII letters. -/
def isKwChar (c : Char) : Bool := 'A' ≤ c && c ≤ 'Z'

/-- If the junction character on either side of an append cannot occur in
`k`, an occurrence of `k` cannot span the junction. -/
theorem substr_append_elim {k u v : Str} (h : k <:+: u ++ v)
    (hb : (∀ c, u.getLast? = some c → c ∉ k) ∨ (∀ c, v.head? = some c → c ∉ k)) :
    k <:+: u ∨ k <:+: v := by
  rcases substr_append_cases h with h1 | h2 | ⟨⟨c, hc, hcp⟩, ⟨c2, hc2, hcp2⟩⟩
  · exact Or.inl h1
  · exact Or.inr h2
  · cases hb with
    | inl hbu => exact absurd hcp (hbu c hc)
    | inr hbv => exact absurd hcp2 (hbv c2 hc2)

/-- Shorthand: the character list of a string literal. -/
def st (s : String) : Str := s.data

/-- `str(n)` for the integer literals interpolated by `str.format`. -/
def natStr (n : Nat) : Str := (toString n).data

def intStr (n : Int) : Str := (toString n).data

/-- Python `any(k in q for k in kws)`. -/
def containsAny (q : Str) (kws : List Str) : Bool := kws.any (fun k => isSubstr k q)

/-!
## `core/sql_generator.py` — `ArgoSQLGenerator`

The language-model client, the retrieval subsystem and the wall clock are
oracles: `LlmSql` stands for `GroqLLMManager.generate_sql_query`, `Rag`
for the two retrieval entry points, and `nowMinus d` for
`(datetime.now() - timedelta(days=d)).strftime('%Y-%m-%d')`.
-/

/-- A retrieved knowledge snippet.  Only the `content` field is ever read
by the code modelled here (for prompt assembly and deduplication), so the
`metadata`/`score` fields are omitted. -/
structure Chunk where
  content : Str
deriving DecidableEq

/-- The two retrieval entry points of the RAG subsystem
(`retrieve_context(query, top_k)` and
`search_by_category(query, category, top_k)`). -/
structure Rag where
  retrieve_context : Str → Nat → List Chunk
  search_by_category : Str → Str → Nat → List Chunk

/-- A parsed language-model response, as a Python dict with optional keys.
`none` in a field models an absent key or a JSON `null`; the required-key
check in `GroqLLMManager._parse_response` guarantees `sql_query`,
`explanation` and `confidence` are present on `success=True` responses,
but nothing constrains their values, so the oracle may return anything.
The same record type models the intermediate `result_data` dicts built by
`generate_query`. -/
structure ResultData where
  success : Option Bool := none
  error : Option Str := none
  sql_query : Option Str := none
  explanation : Option Str := none
  confidence : Option ℚ := none
  query_type : Option Str := none
  parameters_detected : Option (List Str) := none
  suggested_visualizations : Option (List Str) := none
  validation_checks : Option (List Str) := none
deriving DecidableEq

/-- Oracle for `GroqLLMManager.generate_sql_query(user_query,
context_chunks, session_context)`. -/
def LlmSql : Type := Str → List Chunk → Str → ResultData

/-- `Config.REGIONS` from `config/settings.py`. -/
structure RegionCfg where
  lat_min : Int
  lat_max : Int
  lon_min : Int
  lon_max : Int
deriving DecidableEq

def REGIONS : List (Str × RegionCfg) :=
  [(st "arabian_sea", ⟨8, 30, 50, 75⟩),
   (st "bay_of_bengal", ⟨5, 22, 80, 100⟩),
   (st "equator", ⟨-5, 5, -180, 180⟩)]

/-- Python dict lookup `Config.REGIONS[key]`, `none` modelling `KeyError`. -/
def regionLookup (k : Str) : Option RegionCfg :=
  (REGIONS.find? (fun p => p.1 == k)).map (fun p => p.2)

/-- The structured signals extracted by `_analyze_query_intent`. -/
structure Intent where
  query_type : Str
  parameters : List Str
  region : Option Str
  timeframe : Option Str
  float_type : Option Str
  statistics : Bool
  comparison : Bool
deriving DecidableEq

def parameter_mapping : List (Str × List Str) :=
  [(st "temperature", [st "temperature", st "temp", st "sst", st "sea surface temperature"]),
   (st "salinity", [st "salinity", st "sal", st "sss", st "sea surface salinity"]),
   (st "pressure", [st "pressure", st "depth", st "vertical"]),
   (st "oxygen", [st "oxygen", st "doxy", st "dissolved oxygen"]),
   (st "chlorophyll", [st "chlorophyll", st "chla", st "phytoplankton"]),
   (st "nitrate", [st "nitrate", st "no3"])]

/-- `ArgoSQLGenerator._analyze_query_intent`. -/
def analyze_query_intent (user_query : Str) : Intent :=
  let ql := pyLower user_query
  let base : Intent :=
    { query_type := st "basic", parameters := [], region := none, timeframe := none,
      float_type := none, statistics := false, comparison := false }
  let i1 :=
    if containsAny ql [st "profile", st "depth", st "vertical", st "pressure"] then
      { base with query_type := st "profile" }
    else if containsAny ql [st "compare", st "comparison", st "vs", st "versus"] then
      { base with query_type := st "comparative", comparison := true }
    else if containsAny ql [st "average", st "mean", st "max", st "min", st "count", st "sum"] then
      { base with query_type := st "statistical", statistics := true }
    else if containsAny ql [st "trajectory", st "path", st "track", st "movement"] then
      { base with query_type := st "trajectory" }
    else if containsAny ql [st "time", st "temporal", st "evolution", st "trend"] then
      { base with query_type := st "time_series" }
    else if containsAny ql [st "map", st "location", st "position", st "geographic", st "nearest"] then
      { base with query_type := st "geographic" }
    else base
  let params0 := (parameter_mapping.filter (fun p => containsAny ql p.2)).map (fun p => p.1)
  let params :=
    if params0.contains (st "temperature") && !(params0.contains (st "pressure")) then
      params0 ++ [st "pressure"]
    else params0
  let region :=
    if isSubstr (st "arabian sea") ql || isSubstr (st "arabian") ql then some (st "arabian_sea")
    else if isSubstr (st "bay of bengal") ql || isSubstr (st "bengal") ql then some (st "bay_of_bengal")
    else if isSubstr (st "equator") ql then some (st "equator")
    else none
  let float_type :=
    if isSubstr (st "bgc") ql || isSubstr (st "bio-geo") ql || isSubstr (st "biogeochemical") ql then
      some (st "BGC")
    else if isSubstr (st "core") ql || isSubstr (st "standard") ql then some (st "Core")
    else none
  let timeframe :=
    if containsAny ql [st "last month", st "past month"] then some (st "last_month")
    else if containsAny ql [st "last 6 months", st "past 6 months"] then some (st "last_6_months")
    else if containsAny ql [st "last year", st "past year"] then some (st "last_year")
    else if isSubstr (st "recent") ql then some (st "last_month")
    else none
  { i1 with
    parameters := params
    region := region
    timeframe := timeframe
    float_type := float_type }

/-!
### SQL templates

Each Python template string `... WHERE {conditions} ... LIMIT {limit} ...`
is modelled as a function of the two interpolated values; the fixed text
segments are reproduced verbatim from the source (apostrophes written
`\x27`).
-/

def tmpl_basic_floats_pre : Str :=
  st "\n                SELECT wmo_id, latitude, longitude, profile_date, float_category, cycle_number \n                FROM public.argo_profiles \n                WHERE "

def tmpl_basic_floats_mid : Str := st " \n                LIMIT "

def tmpl_suf : Str := st "\n            "

def tmpl_basic_floats (conditions lim : Str) : Str :=
  tmpl_basic_floats_pre ++ conditions ++ tmpl_basic_floats_mid ++ lim ++ tmpl_suf

def tmpl_temperature_profiles_pre : Str :=
  st "\n                SELECT \n                    wmo_id, \n                    cycle_number, \n                    profile_date,\n                    latitude,\n                    longitude,\n                    pressure_dbar, \n                    temperature_celsius,\n                    salinity_psu,\n                    float_category\n                FROM public.argo_profiles \n                WHERE array_length(temperature_celsius, 1) > 0 \n                    AND array_length(pressure_dbar, 1) > 0\n                    AND "

def tmpl_profiles_mid : Str :=
  st " \n                ORDER BY profile_date DESC\n                LIMIT "

def tmpl_temperature_profiles (conditions lim : Str) : Str :=
  tmpl_temperature_profiles_pre ++ conditions ++ tmpl_profiles_mid ++ lim ++ tmpl_suf

def tmpl_salinity_profiles_pre : Str :=
  st "\n                SELECT \n                    wmo_id, \n                    cycle_number, \n                    profile_date,\n                    latitude,\n                    longitude,\n                    pressure_dbar, \n                    temperature_celsius,\n                    salinity_psu,\n                    float_category\n                FROM public.argo_profiles \n                WHERE array_length(salinity_psu, 1) > 0 \n                    AND array_length(pressure_dbar, 1) > 0\n                    AND "

def tmpl_salinity_profiles (conditions lim : Str) : Str :=
  tmpl_salinity_profiles_pre ++ conditions ++ tmpl_profiles_mid ++ lim ++ tmpl_suf

def tmpl_bgc_profiles_pre : Str :=
  st "\n                SELECT \n                    wmo_id, \n                    cycle_number, \n                    profile_date,\n                    latitude,\n                    longitude,\n                    pressure_dbar,\n                    temperature_celsius,\n                    salinity_psu,\n                    doxy_micromol_per_kg,\n                    chla_microgram_per_l,\n                    nitrate_micromol_per_kg,\n                    float_category\n                FROM public.argo_profiles \n                WHERE float_category = \x27BGC\x27\n                    AND array_length(pressure_dbar, 1) > 0\n                    AND (\n                        array_length(chla_microgram_per_l, 1) > 0 \n                        OR array_length(nitrate_micromol_per_kg, 1) > 0\n                        OR array_length(doxy_micromol_per_kg, 1) > 0\n                    )\n                    AND "

def tmpl_bgc_profiles_mid : Str :=
  st "\n                ORDER BY profile_date DESC\n                LIMIT "

def tmpl_bgc_profiles (conditions lim : Str) : Str :=
  tmpl_bgc_profiles_pre ++ conditions ++ tmpl_bgc_profiles_mid ++ lim ++ tmpl_suf

def tmpl_float_metadata_pre : Str :=
  st "\n                SELECT f.*, COUNT(p.profile_id) as profile_count \n                FROM public.argo_floats f \n                LEFT JOIN public.argo_profiles p ON f.wmo_id = p.wmo_id \n                WHERE "

def tmpl_float_metadata_mid : Str := st " \n                GROUP BY f.wmo_id \n                LIMIT "

def tmpl_float_metadata (conditions lim : Str) : Str :=
  tmpl_float_metadata_pre ++ conditions ++ tmpl_float_metadata_mid ++ lim ++ tmpl_suf

def tmpl_trajectory_pre : Str :=
  st "\n                SELECT \n                    wmo_id,\n                    cycle_number,\n                    profile_date,\n                    latitude,\n                    longitude,\n                    float_category\n                FROM public.argo_profiles\n                WHERE "

def tmpl_trajectory_mid : Str :=
  st "\n                ORDER BY wmo_id, profile_date\n                LIMIT "

def tmpl_trajectory (conditions lim : Str) : Str :=
  tmpl_trajectory_pre ++ conditions ++ tmpl_trajectory_mid ++ lim ++ tmpl_suf

/-- The `self.sql_templates` dict; `none` models a `KeyError` on lookup.
Note there is no `"bgc_data"` key — the fallback asks for one. -/
def sql_templates (k : Str) : Option (Str → Str → Str) :=
  if k == st "basic_floats" then some tmpl_basic_floats
  else if k == st "temperature_profiles" then some tmpl_temperature_profiles
  else if k == st "salinity_profiles" then some tmpl_salinity_profiles
  else if k == st "bgc_profiles" then some tmpl_bgc_profiles
  else if k == st "float_metadata" then some tmpl_float_metadata
  else if k == st "trajectory" then some tmpl_trajectory
  else none

def dangerous_keywords : List Str :=
  [st "DROP", st "DELETE", st "TRUNCATE", st "ALTER", st "CREATE", st "INSERT", st "UPDATE"]

def valid_tables : List Str :=
  [st "public.argo_floats", st "public.argo_profiles", st "argo_floats", st "argo_profiles"]

/-- `ArgoSQLGenerator._validate_sql`.  The Python function returns a
`{"valid": bool, "error": ...}` dict; only the `valid` flag is ever
consumed, so the model returns that flag.  `none` models a `sql_query`
that is `None` (or a non-string value), which fails the
`isinstance(sql_query, str)` guard. -/
def validate_sql (sql_query : Option Str) : Bool :=
  match sql_query with
  | none => false
  | some s =>
    if s.isEmpty then false
    else
      let su := pyUpper s
      if !(isSubstr (st "SELECT") su) then false
      else if !(isSubstr (st "FROM") su) then false
      else if dangerous_keywords.any (fun k => isSubstr k su) then false
      else if !(valid_tables.any (fun t => isSubstr t s)) then false
      else true

/-- `ArgoSQLGenerator._build_time_condition`; `nowMinus d` is the oracle
for `(datetime.now() - timedelta(days=d)).strftime('%Y-%m-%d')`. -/
def build_time_condition (nowMinus : Nat → Str) (timeframe : Str) : Option Str :=
  if timeframe == st "last_month" then
    some (st "profile_date >= \x27" ++ nowMinus 30 ++ st "\x27")
  else if timeframe == st "last_6_months" then
    some (st "profile_date >= \x27" ++ nowMinus 180 ++ st "\x27")
  else if timeframe == st "last_year" then
    some (st "profile_date >= \x27" ++ nowMinus 365 ++ st "\x27")
  else none

/-- The region bounding-box condition interpolated by both
`_generate_profile_query` and `_generate_template_fallback`. -/
def region_condition (r : RegionCfg) : Str :=
  st "latitude BETWEEN " ++ intStr r.lat_min ++ st " AND " ++ intStr r.lat_max ++
    st " AND longitude BETWEEN " ++ intStr r.lon_min ++ st " AND " ++ intStr r.lon_max

/-- `ArgoSQLGenerator._get_viz_suggestions`.  Python's final
`list(set(suggestions))` has unspecified order; it is modelled as
first-occurrence deduplication (no claim observes the order). -/
def get_viz_suggestions (intent : Intent) : List Str :=
  let s0 : List Str :=
    if intent.query_type == st "profile" then [st "profiles", st "map", st "table"]
    else if intent.query_type == st "geographic" || intent.query_type == st "trajectory" then
      [st "map", st "trajectory"]
    else if intent.query_type == st "comparative" then
      [st "profiles", st "comparison", st "statistics"]
    else if intent.query_type == st "time_series" then [st "time_series", st "trend_analysis"]
    else if intent.query_type == st "statistical" then [st "statistics", st "histogram"]
    else []
  let s1 :=
    if intent.parameters.contains (st "temperature") && intent.parameters.contains (st "salinity")
    then s0 ++ [st "ts_diagram"] else s0
  let s2 := if intent.float_type == some (st "BGC") then s1 ++ [st "bgc_profiles"] else s1
  let s3 := if s2.isEmpty then [st "map", st "table"] else s2
  s3.dedup

/-- `ArgoSQLGenerator._generate_profile_query`.  The only statement in its
body that can raise is the `Config.REGIONS[...]` lookup (modelled as
`Except.error` on a missing key). -/
def generate_profile_query (nowMinus : Nat → Str) (intent : Intent) (user_query : Str) :
    Except Str ResultData := do
  let conds0 : List Str := [st "1=1"]
  let conds1 ← match intent.region with
    | none => pure conds0
    | some r =>
      match regionLookup r with
      | none => Except.error (st "\x27" ++ r ++ st "\x27")
      | some cfg => pure (conds0 ++ [region_condition cfg])
  let conds2 := match intent.timeframe with
    | none => conds1
    | some tf =>
      match build_time_condition nowMinus tf with
      | none => conds1
      | some tc => conds1 ++ [tc]
  let template_key :=
    if intent.parameters.contains (st "salinity") && isSubstr (st "profile") (pyLower user_query)
    then st "salinity_profiles"
    else if intent.parameters.contains (st "chlorophyll") ||
        intent.parameters.contains (st "nitrate") then st "bgc_profiles"
    else if intent.float_type == some (st "BGC") then st "bgc_profiles"
    else st "temperature_profiles"
  let conditions_str := pyJoin (st " AND ") conds2
  match sql_templates template_key with
  | none => Except.error (st "\x27" ++ template_key ++ st "\x27")
  | some t =>
    pure
      { success := some true
        sql_query := some (pyStrip (t conditions_str (natStr 100)))
        explanation := some (st "Retrieving " ++ pyJoin (st ", ") intent.parameters ++
          st " profile data")
        confidence := some (9/10)
        query_type := some (st "profile")
        parameters_detected := some intent.parameters
        suggested_visualizations := some [st "profiles", st "map", st "table"] }

/-- `ArgoSQLGenerator._generate_template_fallback`.  The body's own
`try/except` catches the `KeyError` raised by indexing `sql_templates`
with the nonexistent `"bgc_data"` key (and any `REGIONS` lookup failure)
and converts it into a `success=False` dict. -/
def generate_template_fallback (nowMinus : Nat → Str) (intent : Intent) : ResultData :=
  let body : Except Str ResultData := do
    let template_key :=
      if intent.query_type == st "profile" || intent.parameters.contains (st "temperature") then
        st "temperature_profiles"
      else if intent.query_type == st "trajectory" then st "trajectory"
      else if intent.float_type == some (st "BGC") ||
          [st "oxygen", st "chlorophyll", st "nitrate"].any
            (fun p => intent.parameters.contains p) then st "bgc_data"
      else st "basic_floats"
    let conds0 : List Str := [st "1=1"]
    let conds1 ← match intent.region with
      | none => pure conds0
      | some r =>
        match regionLookup r with
        | none => Except.error (st "\x27" ++ r ++ st "\x27")
        | some cfg => pure (conds0 ++ [region_condition cfg])
    let conds2 := match intent.float_type with
      | none => conds1
      | some ft => conds1 ++ [st "float_category = \x27" ++ ft ++ st "\x27"]
    let conds3 := match intent.timeframe with
      | none => conds2
      | some tf =>
        match build_time_condition nowMinus tf with
        | none => conds2
        | some tc => conds2 ++ [tc]
    let conditions_str := pyJoin (st " AND ") conds3
    let lim := if intent.statistics then natStr 1000 else natStr 100
    match sql_templates template_key with
    | none => Except.error (st "\x27" ++ template_key ++ st "\x27")
    | some t =>
      pure
        { success := some true
          sql_query := some (pyStrip (t conditions_str lim))
          explanation := some (st "Template-based query for " ++ intent.query_type ++
            st " analysis")
          confidence := some (7/10)
          query_type := some intent.query_type
          parameters_detected := some intent.parameters
          validation_checks := some [st "template_based"]
          suggested_visualizations := some (get_viz_suggestions intent) }
  match body with
  | .ok r => r
  | .error e =>
    { success := some false
      error := some (st "Template fallback failed: " ++ e)
      sql_query := none
      explanation := some (st "Template generation failed")
      confidence := some 0 }

/-!
### `_enhance_sql_for_profiles` and its regular-expression search

`re.search(r'SELECT\s+(.*?)\s+FROM', sql, re.IGNORECASE | re.DOTALL)` is
modelled by an explicit backtracking search that mirrors the engine's
priorities: leftmost start position; first `\s+` longest first; lazy
group shortest first; second `\s+` longest first.  The returned pair
`(a, b)` is the span of capture group 1. -/

/-- Length of the whitespace run of `s` starting at index `i`. -/
def wsRun (s : Str) (i : Nat) : Nat := ((s.drop i).takeWhile isPySpace).length

/-- Case-insensitive match of `SELECT` at index `i`. -/
def selectAt (s : Str) (i : Nat) : Bool := pyUpper ((s.drop i).take 6) == st "SELECT"

/-- Case-insensitive match of `FROM` at index `i`. -/
def fromAt (s : Str) (i : Nat) : Bool := pyUpper ((s.drop i).take 4) == st "FROM"

def tryMatchAt (s : Str) (start : Nat) : Option (Nat × Nat) :=
  if selectAt s start then
    (List.range (wsRun s (start + 6))).findSome? (fun dw =>
      let a := start + 6 + (wsRun s (start + 6) - dw)
      (List.range (s.length + 1 - a)).findSome? (fun g =>
        let b := a + g
        if (List.range (wsRun s b)).any (fun dw2 => fromAt s (b + (wsRun s b - dw2))) then
          some (a, b)
        else none))
  else none

def findEnhanceMatch (s : Str) : Option (Nat × Nat) :=
  (List.range (s.length + 1)).findSome? (fun i => tryMatchAt s i)

/-- `ArgoSQLGenerator._enhance_sql_for_profiles`. -/
def enhance_sql_for_profiles (sql_query : Str) (intent : Intent) : Str :=
  let su := pyUpper sql_query
  if intent.query_type == st "profile" || isSubstr (st "TEMPERATURE") su ||
      isSubstr (st "SALINITY") su then
    if !(isSubstr (st "PRESSURE_DBAR") su) then
      match findEnhanceMatch sql_query with
      | some (a, b) =>
        let current_fields := (sql_query.drop a).take (b - a)
        let add1 : Str :=
          if !(isSubstr (st "pressure_dbar") (pyLower current_fields)) then st ", pressure_dbar"
          else []
        let add2 : Str :=
          if !(isSubstr (st "salinity_psu") (pyLower current_fields)) &&
              intent.parameters.contains (st "salinity") then st ", salinity_psu"
          else []
        sql_query.take a ++ current_fields ++ add1 ++ add2 ++ sql_query.drop b
      | none => sql_query
    else sql_query
  else sql_query

/-- `ArgoSQLGenerator._enhance_response_with_viz`. -/
def enhance_response_with_viz (r : ResultData) (intent : Intent) : ResultData :=
  let r1 :=
    if (r.suggested_visualizations.getD []).isEmpty then
      { r with suggested_visualizations := some (get_viz_suggestions intent) }
    else r
  if r1.query_type.isNone then { r1 with query_type := some intent.query_type } else r1

/-- `ArgoSQLGenerator._get_relevant_context` (deduplication keyed on the
first 100 characters of content, truncation to 8 chunks). -/
def dedup_chunks : List Chunk → List Str → List Chunk
  | [], _ => []
  | c :: rest, seen =>
    if seen.contains (c.content.take 100) then dedup_chunks rest seen
    else c :: dedup_chunks rest (seen ++ [c.content.take 100])

def get_relevant_context (rag : Rag) (user_query : Str) (intent : Intent) : List Chunk :=
  let c1 := rag.retrieve_context user_query 3
  let c2 := rag.search_by_category user_query (st "schema") 2
  let c3 := match intent.region with
    | none => []
    | some r => rag.search_by_category (r ++ st " region") (st "geography") 1
  let c4 :=
    if intent.float_type == some (st "BGC") ||
        [st "oxygen", st "chlorophyll", st "nitrate"].any
          (fun p => intent.parameters.contains p) then
      rag.search_by_category (st "BGC parameters") (st "bgc") 2
    else []
  let c5 := rag.search_by_category intent.query_type (st "examples") 1
  (dedup_chunks (c1 ++ c2 ++ c3 ++ c4 ++ c5) []).take 8

/-- The unified dict returned by `ArgoSQLGenerator.generate_query`
(the spec's `SQLResponse`). -/
structure SqlGenResult where
  success : Bool
  sql_query : Option Str
  query_type : Str
  query_text : Str
  suggested_visualizations : List Str
  explanation : Str
  confidence : ℚ
deriving DecidableEq

/-- `ArgoSQLGenerator.generate_query`.  The `try` body is an `Except`
computation; its only raise sites are dict lookups (`REGIONS`,
`sql_templates`).  The oracles: `rag` for the retrieval subsystem, `llm`
for `GroqLLMManager.generate_sql_query`, `nowMinus` for the clock. -/
def generate_query (rag : Rag) (llm : LlmSql) (nowMinus : Nat → Str)
    (user_query session_context : Str) : SqlGenResult :=
  let intent := analyze_query_intent user_query
  let body : Except Str ResultData := do
    let context_chunks := get_relevant_context rag user_query intent
    if intent.query_type == st "profile" ||
        containsAny (pyLower user_query)
          [st "profile", st "temperature", st "vertical", st "depth"] then
      generate_profile_query nowMinus intent user_query
    else
      let llm_response := llm user_query context_chunks session_context
      if llm_response.success.getD false then
        if validate_sql llm_response.sql_query then
          match llm_response.sql_query with
          | some s =>
            pure (enhance_response_with_viz
              { llm_response with sql_query := some (enhance_sql_for_profiles s intent) }
              intent)
          | none =>
            -- unreachable: `validate_sql none = false`
            pure (generate_template_fallback nowMinus intent)
        else pure (generate_template_fallback nowMinus intent)
      else pure (generate_template_fallback nowMinus intent)
  let result_data : ResultData :=
    match body with
    | .ok rd => rd
    | .error e =>
      { success := some false
        error := some (st "SQL generation failed: " ++ e)
        sql_query := none
        explanation := some (st "An error occurred during query generation.")
        query_type := some intent.query_type
        suggested_visualizations := some [] }
  { success := result_data.success.getD false
    sql_query := result_data.sql_query
    query_type := result_data.query_type.getD intent.query_type
    query_text := user_query
    suggested_visualizations := result_data.suggested_visualizations.getD []
    explanation := result_data.explanation.getD (st "No explanation available.")
    confidence := result_data.confidence.getD (8/10) }

/-!
## Dynamic values

Result rows arrive from the storage client as string-keyed mappings whose
values are JSON-ish dynamic values: `None`, numbers, strings, arrays (and
occasionally nested objects).  `PyVal` models that value domain.  Numbers
are embedded as integers and rationals; Python `float`s are binary64, but
no claim observes a value where the two differ, and every constant the
code compares against (`0.2`, `5.0`, …) is modelled by the exact rational
the source literal denotes.
-/

inductive PyVal where
  | none
  | int (n : Int)
  | float (q : ℚ)
  | str (s : Str)
  | list (l : List PyVal)
  | dict (d : List (Str × PyVal))

mutual

def PyVal.beq : PyVal → PyVal → Bool
  | .none, .none => true
  | .int a, .int b => a == b
  | .float a, .float b => a == b
  | .str a, .str b => a == b
  | .list a, .list b => PyVal.beqList a b
  | .dict a, .dict b => PyVal.beqDict a b
  | _, _ => false

def PyVal.beqList : List PyVal → List PyVal → Bool
  | [], [] => true
  | a :: as, b :: bs => PyVal.beq a b && PyVal.beqList as bs
  | _, _ => false

def PyVal.beqDict : List (Str × PyVal) → List (Str × PyVal) → Bool
  | [], [] => true
  | (k, a) :: as, (k2, b) :: bs => k == k2 && PyVal.beq a b && PyVal.beqDict as bs
  | _, _ => false

end

instance : BEq PyVal := ⟨PyVal.beq⟩

/-- A result row: a string-keyed mapping. -/
abbrev Row := List (Str × PyVal)

/-- `row.get(key)` with default `None`. -/
def pyGet (r : Row) (k : Str) : PyVal :=
  (((r.find? (fun p => p.1 == k))).map (fun p => p.2)).getD PyVal.none

/-- `row.get(key, default)`. -/
def pyGetD (r : Row) (k : Str) (d : PyVal) : PyVal :=
  (((r.find? (fun p => p.1 == k))).map (fun p => p.2)).getD d

/-- Python truthiness. -/
def pyTruthy : PyVal → Bool
  | .none => false
  | .int n => !(n == 0)
  | .float q => !(q == 0)
  | .str s => !s.isEmpty
  | .list l => !l.isEmpty
  | .dict d => !d.isEmpty

/-- `type(v).__name__`. -/
def py_type_name : PyVal → Str
  | .none => st "NoneType"
  | .int _ => st "int"
  | .float _ => st "float"
  | .str _ => st "str"
  | .list _ => st "list"
  | .dict _ => st "dict"

/-- `str(q)` for a rational.  Python renders binary64 floats in decimal;
this model renders the rational exactly (`n` or `n/d`).  The rendering is
only consumed by truthiness/`null`/`nan` filters and display strings that
no claim observes, and it is never `""`, `"null"` or `"nan"`. -/
def ratStr (q : ℚ) : Str :=
  if q.den == 1 then intStr q.num else intStr q.num ++ st "/" ++ natStr q.den

mutual

def pyToString : PyVal → Str
  | .none => st "None"
  | .int n => intStr n
  | .float q => ratStr q
  | .str s => s
  | .list l => st "[" ++ pyJoin (st ", ") (pyToStringList l) ++ st "]"
  | .dict _ => st "{...}"

def pyToStringList : List PyVal → List Str
  | [] => []
  | v :: vs => pyToString v :: pyToStringList vs

end

/-- All-digit string to its value. -/
def digitsToNat : Str → Option Nat
  | [] => Option.none
  | l =>
    if l.all Char.isDigit then
      some (l.foldl (fun acc c => acc * 10 + (c.toNat - 48)) 0)
    else Option.none

/-- Model of Python `float(s)` on a string: optional surrounding
whitespace, optional sign, digits with at most one point, optional
exponent.  (`inf`/`nan` spellings and `_` digit separators are not
modelled; no code path produces them.) -/
def parsePyFloat (s : Str) : Option ℚ :=
  let t := pyStrip s
  let (sign, t1) : ℚ × Str :=
    match t with
    | '-' :: r => (-1, r)
    | '+' :: r => (1, r)
    | r => (1, r)
  let (mant, expPart) : Str × Option Str :=
    match t1.splitOn 'e', t1.splitOn 'E' with
    | [m, e], _ => (m, some e)
    | _, [m, e] => (m, some e)
    | _, _ => (t1, Option.none)
  let mantVal : Option ℚ :=
    match mant.splitOn '.' with
    | [ip] => (digitsToNat ip).map (fun n => (n : ℚ))
    | [ip, fp] =>
      if ip.isEmpty && fp.isEmpty then Option.none
      else
        let ipv : Option ℚ := if ip.isEmpty then some 0 else (digitsToNat ip).map (fun n => (n : ℚ))
        let fpv : Option ℚ :=
          if fp.isEmpty then some 0
          else (digitsToNat fp).map (fun n => (n : ℚ) / (10 : ℚ) ^ fp.length)
        match ipv, fpv with
        | some a, some b => some (a + b)
        | _, _ => Option.none
    | _ => Option.none
  let expVal : Option Int :=
    match expPart with
    | Option.none => some 0
    | some e =>
      match e with
      | '-' :: d => (digitsToNat d).map (fun n => -(n : Int))
      | '+' :: d => (digitsToNat d).map (fun n => (n : Int))
      | d => (digitsToNat d).map (fun n => (n : Int))
  match mantVal, expVal with
  | some m, some e => some (sign * m * (10 : ℚ) ^ e)
  | _, _ => Option.none

/-- Model of Python `int(s)` on a string. -/
def parsePyInt (s : Str) : Option Int :=
  let t := pyStrip s
  match t with
  | '-' :: r => (digitsToNat r).map (fun n => -(n : Int))
  | '+' :: r => (digitsToNat r).map (fun n => (n : Int))
  | r => (digitsToNat r).map (fun n => (n : Int))

/-- `int()` truncation toward zero of a rational. -/
def ratTrunc (q : ℚ) : Int := if q ≥ 0 then Rat.floor q else -Rat.floor (-q)

/-- `float(v)`: `none` models a `TypeError`/`ValueError`. -/
def conv_float : PyVal → Option ℚ
  | .int n => some (n : ℚ)
  | .float q => some q
  | .str s => parsePyFloat s
  | _ => Option.none

/-- `int(v)`: `none` models a `TypeError`/`ValueError`. -/
def conv_int : PyVal → Option Int
  | .int n => some n
  | .float q => some (ratTrunc q)
  | .str s => parsePyInt s
  | _ => Option.none

/-!
## `core/data_processor.py` — `ArgoDataProcessor`
-/

/-- The token list stage of `_extract_array_data`: strings are
brace-stripped, comma-split, stripped and kept when nonempty; native
lists pass through; a truthy dict yields its keys, as Python's
`for val in dict` iterates over keys.  `none` models a truthy
non-iterable value (a number), whose `TypeError` the function's own
`except` turns into `[]`. -/
def array_tokens (v : PyVal) : Option (List PyVal) :=
  if !(pyTruthy v) then some []
  else match v with
    | .str s =>
      let parts := (pyStripChars (st "\x7b\x7d") s).splitOn ','
      some (((parts.map pyStrip).filter (fun x => !x.isEmpty)).map PyVal.str)
    | .list l => some l
    | .dict l => some (l.map (fun p => PyVal.str p.1))
    | _ => Option.none

/-- Keep a token when it is not `None` and `str(val).lower()` is not
`null`/`nan`/empty. -/
def keep_token (v : PyVal) : Bool :=
  match v with
  | .none => false
  | _ =>
    let s := pyLower (pyToString v)
    !(s == st "null" || s == st "nan" || s == ([] : Str))

/-- `ArgoDataProcessor._extract_array_data` with the default
`dtype=float`. -/
def extract_array_data (v : PyVal) : List ℚ :=
  match array_tokens v with
  | Option.none => []
  | some toks =>
    toks.filterMap (fun t => if keep_token t then conv_float t else Option.none)

/-- `ArgoDataProcessor._extract_array_data` with `dtype=int`. -/
def extract_array_data_int (v : PyVal) : List Int :=
  match array_tokens v with
  | Option.none => []
  | some toks =>
    toks.filterMap (fun t => if keep_token t then conv_int t else Option.none)

/-- `ArgoDataProcessor._format_datetime`.  Timestamps arrive from the
JSON storage client as ISO strings (or null); the `datetime` branch of
the Python function is represented by the generic `str(v)` rendering. -/
def format_datetime : PyVal → Str
  | PyVal.none => []
  | PyVal.str s => s
  | v => pyToString v

def sumNat (l : List Nat) : Nat := l.foldl (· + ·) 0

def minQ : List ℚ → ℚ
  | [] => 0
  | x :: xs => xs.foldl min x

def maxQ : List ℚ → ℚ
  | [] => 0
  | x :: xs => xs.foldl max x

def sumQ (l : List ℚ) : ℚ := l.foldl (· + ·) 0

def meanQ (l : List ℚ) : ℚ := sumQ l / l.length

/-- The square of `np.std` (population variance).  `np.std` itself is an
irrational square root; no claim observes the value, so the variance is
stored. -/
def np_std_sq (l : List ℚ) : ℚ :=
  meanQ (l.map (fun x => (x - meanQ l) ^ 2))

/-- First index of the maximum: `l.index(max(l))`. -/
def idxOfMax (l : List ℚ) : Nat := l.findIdx (fun x => x == maxQ l)

/-- First index of the minimum: `l.index(min(l))`. -/
def idxOfMin (l : List ℚ) : Nat := l.findIdx (fun x => x == minQ l)

/-- Python code-point comparison of strings. -/
def strLt : Str → Str → Bool
  | [], [] => false
  | [], _ :: _ => true
  | _ :: _, [] => false
  | a :: as, b :: bs => if a < b then true else if b < a then false else strLt as bs

def strLe (a b : Str) : Bool := !(strLt b a)

/-- Append `r` to the group keyed `k`, preserving first-insertion order
(Python dict semantics). -/
def insert_group (gs : List (PyVal × List Row)) (k : PyVal) (r : Row) :
    List (PyVal × List Row) :=
  match gs with
  | [] => [(k, [r])]
  | (k2, rs) :: rest =>
    if k2 == k then (k2, rs ++ [r]) :: rest else (k2, rs) :: insert_group rest k r

/-- The `float_groups` loop shared by the geographic and time-series
branches: group rows by truthy `wmo_id`. -/
def group_rows (rows : List Row) : List (PyVal × List Row) :=
  rows.foldl
    (fun gs r =>
      let w := pyGet r (st "wmo_id")
      if pyTruthy w then insert_group gs w r else gs)
    []

/-- The sort key `x.get('profile_date') or datetime.min`: the
`datetime.min` sentinel for falsy values, a string, a number (Python
compares `int` and `float` keys numerically with each other), or an
unordered value. -/
inductive DateKey where
  | dtmin
  | strk (s : Str)
  | numk (q : ℚ)
  | other

def date_key (r : Row) : DateKey :=
  let v := pyGet r (st "profile_date")
  if !(pyTruthy v) then DateKey.dtmin
  else match v with
    | PyVal.str s => DateKey.strk s
    | PyVal.int n => DateKey.numk n
    | PyVal.float q => DateKey.numk q
    | _ => DateKey.other

def date_le (a b : Row) : Bool :=
  match date_key a, date_key b with
  | DateKey.dtmin, DateKey.dtmin => true
  | DateKey.strk x, DateKey.strk y => strLe x y
  | DateKey.numk x, DateKey.numk y => decide (x ≤ y)
  | _, _ => true

/-- `float_data.sort(key=lambda x: x.get('profile_date') or datetime.min)`.
A group whose keys are all of one comparable kind (all the
`datetime.min` sentinel, all strings, or all numbers) sorts without
error under Python's stable ascending sort; a group of at least two
rows whose keys mix kinds, or contain a list or dict key, raises a
`TypeError` at the first cross comparison (list keys are modelled as
incomparable: Python compares two lists element-wise, but no claim
observes a row whose `profile_date` is a list). -/
def sort_by_date (rows : List Row) : Except Str (List Row) :=
  if rows.length ≤ 1 then pure rows
  else
    let ks := rows.map date_key
    if ks.all (fun k => match k with | DateKey.dtmin => true | _ => false) ||
        ks.all (fun k => match k with | DateKey.strk _ => true | _ => false) ||
        ks.all (fun k => match k with | DateKey.numk _ => true | _ => false) then
      pure (rows.mergeSort date_le)
    else Except.error (st "TypeError: unorderable profile_date values")

/-- `float(v)` where failure is a raised exception. -/
def py_float (v : PyVal) : Except Str ℚ :=
  match conv_float v with
  | some q => pure q
  | Option.none => Except.error (st "could not convert value to float")

structure Coord where
  lat : ℚ
  lon : ℚ
  date : Str
  cycle : PyVal

structure Trajectory where
  wmo_id : PyVal
  float_type : PyVal
  institution : PyVal
  path_coordinates : List Coord
  deployment_lat : ℚ
  deployment_lon : ℚ
  current_status : Str

structure CurrentPos where
  wmo_id : PyVal
  lat : ℚ
  lon : ℚ
  last_profile : Str

structure BBox where
  north : ℚ
  south : ℚ
  east : ℚ
  west : ℚ

structure GeoFeature where
  lon : ℚ
  lat : ℚ
  wmo_id : PyVal
  last_profile : Str

structure GeoViz where
  trajectories : List Trajectory
  current_positions : List CurrentPos
  deployment_markers : List PyVal
  bounding_box : BBox
  ocean_basins : List Str
  geographical_features : List Str
  geojson_features : List GeoFeature

structure QcFlags where
  pressure_qc : List Int
  temperature_qc : List Int
  salinity_qc : List Int

structure BgcParams where
  dissolved_oxygen : List ℚ
  chlorophyll : List ℚ
  nitrate : List ℚ
  doxy_qc : List Int
  chla_qc : List Int
  nitrate_qc : List Int

structure OMZ where
  depth : Option ℚ
  min_value : ℚ

structure Derived where
  mixed_layer_depth : Option ℚ
  thermocline_depth : Option ℚ
  max_chlorophyll_depth : Option ℚ
  oxygen_minimum_zone : Option OMZ

structure Profile where
  wmo_id : PyVal
  profile_date : Str
  cycle_number : PyVal
  lat : Option ℚ
  lon : Option ℚ
  pressure : List ℚ
  temperature : List ℚ
  salinity : List ℚ
  quality_flags : QcFlags
  bgc_parameters : Option BgcParams
  derived_parameters : Option Derived

structure CompEntry where
  min : ℚ
  max : ℚ
  mean : ℚ
  std_sq : ℚ

structure CompStat where
  temperature : CompEntry
  salinity : Option CompEntry

structure ProfilesViz where
  vertical_profiles : List Profile
  comparison_data : Option CompStat

structure TsPointOut where
  date : Str
  value : ℚ
  depth : ℚ

structure Evolution where
  wmo_id : PyVal
  parameter : Str
  temporal_data : List TsPointOut

structure TimeSeriesViz where
  parameter_evolution : List Evolution

structure StatEntry where
  count : Nat
  min : ℚ
  max : ℚ
  mean : ℚ
  std_sq : ℚ

structure ColInfo where
  type_name : Str
  is_array : Bool
  has_nulls : Bool
  sample_value : Str

inductive VizData where
  | empty
  | geospatial (g : GeoViz)
  | profiles (p : ProfilesViz)
  | time_series (t : TimeSeriesViz)
  | statistics (s : List (Str × StatEntry))
  | general (records : List Row) (column_info : List (Str × ColInfo))

inductive ExecStats where
  | records (n : Nat)
  | geo (floats positions ms : Nat)
  | profiles (profiles_processed arrays_unpacked qc_flags_applied : Nat)
  | times (n points : Nat)
  | stats (records computed : Nat)
  | err (msg : Str)

structure ProcData where
  title : Str
  summary : Str
  sql_query : Option Str
  display_components : List Str
  query_results : List Row
  visualization_data : VizData
  execution_stats : ExecStats

structure ProcResponse where
  success : Bool
  error : Option Str := Option.none
  data : ProcData

/-- `ArgoDataProcessor._identify_ocean_basins`. -/
def identify_ocean_basins (b : BBox) : List Str :=
  let basins :=
    (if 40 ≤ b.east && b.east ≤ 100 && -10 ≤ b.north && b.north ≤ 30 then
      [st "Indian Ocean"] else []) ++
    (if -90 ≤ b.south && b.south ≤ -40 then [st "Southern Ocean"] else [])
  if basins.isEmpty then [st "Unknown Ocean"] else basins

/-- `.replace("_", " ").title()` over the region keys. -/
def pyTitle (s : Str) : Str :=
  (s.foldl
    (fun (acc : Str × Bool) c =>
      if c.isAlpha then
        (acc.1 ++ [if acc.2 then c.toUpper else c.toLower], true)
      else (acc.1 ++ [c], false))
    ([], false)).1

def replaceUnderscore (s : Str) : Str := s.map (fun c => if c == '_' then ' ' else c)

/-- `ArgoDataProcessor._identify_geographic_features`. -/
def identify_geographic_features (b : BBox) : List Str :=
  (REGIONS.filter (fun p =>
    (p.2.lat_min : ℚ) ≤ b.north && (p.2.lat_max : ℚ) ≥ b.south &&
    (p.2.lon_min : ℚ) ≤ b.east && (p.2.lon_max : ℚ) ≥ b.west)).map
    (fun p => pyTitle (replaceUnderscore p.1))

/-- The inner per-group coordinate extraction of
`_process_geographic_data`. -/
def coord_points (rows : List Row) : Except Str (List Coord) :=
  rows.foldlM
    (fun acc r =>
      if pyTruthy (pyGet r (st "latitude")) && pyTruthy (pyGet r (st "longitude")) then do
        let la ← py_float (pyGet r (st "latitude"))
        let lo ← py_float (pyGet r (st "longitude"))
        pure (acc ++ [Coord.mk la lo (format_datetime (pyGet r (st "profile_date")))
          (pyGetD r (st "cycle_number") (PyVal.int 0))])
      else pure acc)
    []

/-- `ArgoDataProcessor._process_geographic_data`. -/
def process_geographic_data (raw_results : List Row) (md : SqlGenResult) :
    Except Str ProcResponse := do
  let groups := group_rows raw_results
  let (trajectories, current_positions) ←
    groups.foldlM
      (fun (acc : List Trajectory × List CurrentPos) g => do
        let sorted ← sort_by_date g.2
        let pts ← coord_points sorted
        if pts.isEmpty then pure acc
        else
          -- `row` here is Python's leaked loop variable: the last row of
          -- the (sorted in place) group.
          let lastRow := (sorted.getLast?).getD []
          let headPt := (pts.head?).getD (Coord.mk 0 0 [] PyVal.none)
          let lastPt := (pts.getLast?).getD headPt
          let traj : Trajectory :=
            { wmo_id := g.1
              float_type := pyGetD lastRow (st "float_type") (PyVal.str (st "Unknown"))
              institution := pyGetD lastRow (st "institution") (PyVal.str (st "Unknown"))
              path_coordinates := pts
              deployment_lat := headPt.lat
              deployment_lon := headPt.lon
              current_status := if pts.length > 1 then st "active" else st "unknown" }
          let pos : CurrentPos :=
            { wmo_id := g.1, lat := lastPt.lat, lon := lastPt.lon, last_profile := lastPt.date }
          pure (acc.1 ++ [traj], acc.2 ++ [pos]))
      ([], [])
  let all_lats := current_positions.map (fun p => p.lat)
  let all_lons := current_positions.map (fun p => p.lon)
  let bounding_box : BBox :=
    if !all_lats.isEmpty && !all_lons.isEmpty then
      { north := maxQ all_lats, south := minQ all_lats,
        east := maxQ all_lons, west := minQ all_lons }
    else { north := 0, south := 0, east := 0, west := 0 }
  let geojson := current_positions.map
    (fun p => GeoFeature.mk p.lon p.lat p.wmo_id p.last_profile)
  pure
    { success := true
      data :=
        { title := st "ARGO Float Geographic Analysis - " ++
            natStr trajectories.length ++ st " floats"
          summary := st "Geographic analysis of " ++ natStr trajectories.length ++
            st " ARGO floats with " ++ natStr current_positions.length ++
            st " position records"
          sql_query := md.sql_query
          display_components := [st "map", st "trajectories", st "export"]
          query_results := raw_results
          visualization_data := VizData.geospatial
            { trajectories := trajectories
              current_positions := current_positions
              deployment_markers := []
              bounding_box := bounding_box
              ocean_basins := identify_ocean_basins bounding_box
              geographical_features := identify_geographic_features bounding_box
              geojson_features := geojson }
          execution_stats :=
            ExecStats.geo trajectories.length current_positions.length 0 } }

/-- `ArgoDataProcessor._calculate_derived_parameters` (total: every index
is guarded in the source; the enclosing `try` can never fire). -/
def calculate_derived_parameters (pressure temperature _salinity doxy chla : List ℚ) :
    Derived :=
  let haveBase := !pressure.isEmpty && !temperature.isEmpty
  let t0 := temperature.headI
  let mld : Option ℚ :=
    if haveBase && temperature.length > 10 then
      let temp_diff := temperature.map (fun t => |t - t0|)
      match temp_diff.findIdx? (fun d => decide (d > 1/5)) with
      | some i =>
        -- Python: `if mld_idx and mld_idx < len(pressure)` — index 0 is falsy.
        if i ≠ 0 && i < pressure.length then some (pressure.getD i 0) else Option.none
      | Option.none => Option.none
    else Option.none
  let thermocline : Option ℚ :=
    if haveBase && temperature.length > 5 then
      let grads := (temperature.zip temperature.tail).map (fun p => p.1 - p.2)
      let i := if grads.isEmpty then 0 else idxOfMax grads
      if i < pressure.length then some (pressure.getD i 0) else Option.none
    else Option.none
  let chla_depth : Option ℚ :=
    if !chla.isEmpty && !pressure.isEmpty then
      let i := idxOfMax chla
      if i < pressure.length then some (pressure.getD i 0) else Option.none
    else Option.none
  let omz : Option OMZ :=
    if !doxy.isEmpty && !pressure.isEmpty && doxy.length > 10 then
      let mv := minQ doxy
      let i := idxOfMin doxy
      some { depth := if i < pressure.length then some (pressure.getD i 0) else Option.none
             min_value := mv }
    else Option.none
  { mixed_layer_depth := mld, thermocline_depth := thermocline,
    max_chlorophyll_depth := chla_depth, oxygen_minimum_zone := omz }

/-- `ArgoDataProcessor._create_comparison_data`.  Note the source writes
`comparison_data["statistical_summary"]["salinity"]` even when the
`statistical_summary` key was never created (no temperature samples but
some salinity samples): that is a `KeyError`. -/
def create_comparison_data (profiles : List Profile) : Except Str (Option CompStat) :=
  if profiles.length < 2 then pure Option.none
  else
    let all_temps := (profiles.map (fun p => p.temperature)).flatten
    let all_sals := (profiles.map (fun p => p.salinity)).flatten
    let tempEntry : Option CompEntry :=
      if all_temps.isEmpty then Option.none
      else some
        { min := minQ all_temps, max := maxQ all_temps, mean := meanQ all_temps,
          std_sq := if all_temps.length > 1 then np_std_sq all_temps else 0 }
    if all_sals.isEmpty then
      pure (tempEntry.map (fun t => CompStat.mk t Option.none))
    else
      match tempEntry with
      | some t =>
        pure (some (CompStat.mk t (some
          { min := minQ all_sals, max := maxQ all_sals, mean := meanQ all_sals,
            std_sq := if all_sals.length > 1 then np_std_sq all_sals else 0 })))
      | Option.none => Except.error (st "KeyError: \x27statistical_summary\x27")

/-- `ArgoDataProcessor._process_profile_data`. -/
def process_profile_data (raw_results : List Row) (md : SqlGenResult) :
    Except Str ProcResponse := do
  let vertical_profiles ←
    raw_results.foldlM
      (fun (acc : List Profile) r => do
        let pressure := extract_array_data (pyGetD r (st "pressure_dbar") (PyVal.list []))
        let temperature :=
          extract_array_data (pyGetD r (st "temperature_celsius") (PyVal.list []))
        let salinity := extract_array_data (pyGetD r (st "salinity_psu") (PyVal.list []))
        let pressure_qc :=
          extract_array_data_int (pyGetD r (st "pressure_qc") (PyVal.list []))
        let temperature_qc :=
          extract_array_data_int (pyGetD r (st "temperature_qc") (PyVal.list []))
        let salinity_qc :=
          extract_array_data_int (pyGetD r (st "salinity_qc") (PyVal.list []))
        let doxy := extract_array_data (pyGetD r (st "doxy_micromol_per_kg") (PyVal.list []))
        let chla := extract_array_data (pyGetD r (st "chla_microgram_per_l") (PyVal.list []))
        let nitrate :=
          extract_array_data (pyGetD r (st "nitrate_micromol_per_kg") (PyVal.list []))
        let doxy_qc := extract_array_data_int (pyGetD r (st "doxy_qc") (PyVal.list []))
        let chla_qc := extract_array_data_int (pyGetD r (st "chla_qc") (PyVal.list []))
        let nitrate_qc := extract_array_data_int (pyGetD r (st "nitrate_qc") (PyVal.list []))
        let lat ← if pyTruthy (pyGet r (st "latitude")) then do
            let v ← py_float (pyGet r (st "latitude"))
            pure (some v)
          else pure (Option.none : Option ℚ)
        let lon ← if pyTruthy (pyGet r (st "longitude")) then do
            let v ← py_float (pyGet r (st "longitude"))
            pure (some v)
          else pure (Option.none : Option ℚ)
        let hasBgc := !doxy.isEmpty || !chla.isEmpty || !nitrate.isEmpty
        let profile : Profile :=
          { wmo_id := pyGet r (st "wmo_id")
            profile_date := format_datetime (pyGet r (st "profile_date"))
            cycle_number := pyGet r (st "cycle_number")
            lat := lat
            lon := lon
            pressure := pressure
            temperature := temperature
            salinity := salinity
            quality_flags := QcFlags.mk pressure_qc temperature_qc salinity_qc
            bgc_parameters :=
              if hasBgc then
                some (BgcParams.mk doxy chla nitrate doxy_qc chla_qc nitrate_qc)
              else Option.none
            derived_parameters :=
              if hasBgc then
                some (calculate_derived_parameters pressure temperature salinity doxy chla)
              else Option.none }
        pure (acc ++ [profile]))
      []
  let comparison_data ← create_comparison_data vertical_profiles
  pure
    { success := true
      data :=
        { title := st "ARGO Profile Analysis - " ++ natStr vertical_profiles.length ++
            st " profiles"
          summary := st "Vertical profile analysis of " ++
            natStr vertical_profiles.length ++ st " ARGO measurements"
          sql_query := md.sql_query
          display_components := [st "profiles", st "comparison", st "export"]
          query_results := raw_results
          visualization_data := VizData.profiles
            { vertical_profiles := vertical_profiles, comparison_data := comparison_data }
          execution_stats := ExecStats.profiles vertical_profiles.length
            (vertical_profiles.length * 3)
            (sumNat (vertical_profiles.map
              (fun p => p.quality_flags.temperature_qc.length))) } }

structure TsPoint where
  date : Str
  latitude : Option ℚ
  longitude : Option ℚ
  surface_temperature : Option ℚ
  surface_salinity : Option ℚ
  cycle_number : PyVal

/-- Grouping loop of `_process_time_series_data` (insertion-ordered dict
of per-float time points). -/
def insert_ts_group (gs : List (PyVal × List TsPoint)) (k : PyVal) (p : TsPoint) :
    List (PyVal × List TsPoint) :=
  match gs with
  | [] => [(k, [p])]
  | (k2, ps) :: rest =>
    if k2 == k then (k2, ps ++ [p]) :: rest else (k2, ps) :: insert_ts_group rest k p

/-- `ArgoDataProcessor._process_time_series_data`. -/
def process_time_series_data (raw_results : List Row) (md : SqlGenResult) :
    Except Str ProcResponse := do
  let groups ←
    raw_results.foldlM
      (fun (gs : List (PyVal × List TsPoint)) r => do
        let w := pyGet r (st "wmo_id")
        if !(pyTruthy w) then pure gs
        else do
          let temperature :=
            extract_array_data (pyGetD r (st "temperature_celsius") (PyVal.list []))
          let salinity := extract_array_data (pyGetD r (st "salinity_psu") (PyVal.list []))
          let lat ← if pyTruthy (pyGet r (st "latitude")) then do
              let v ← py_float (pyGet r (st "latitude"))
              pure (some v)
            else pure (Option.none : Option ℚ)
          let lon ← if pyTruthy (pyGet r (st "longitude")) then do
              let v ← py_float (pyGet r (st "longitude"))
              pure (some v)
            else pure (Option.none : Option ℚ)
          let p : TsPoint :=
            { date := format_datetime (pyGet r (st "profile_date"))
              latitude := lat
              longitude := lon
              surface_temperature := temperature.head?
              surface_salinity := salinity.head?
              cycle_number := pyGet r (st "cycle_number") }
          pure (insert_ts_group gs w p))
      []
  -- each float's points sorted by `x['date'] or ''` (always strings here)
  let sortedGroups := groups.map
    (fun g => (g.1, g.2.mergeSort (fun a b => strLe a.date b.date)))
  let parameter_evolution :=
    (sortedGroups.filter (fun g => !g.2.isEmpty)).map
      (fun g =>
        Evolution.mk g.1 (st "sea_surface_temperature")
          ((g.2.filterMap (fun p =>
            p.surface_temperature.map (fun v => TsPointOut.mk p.date v 5)))))
  pure
    { success := true
      data :=
        { title := st "ARGO Time Series Analysis - " ++
            natStr parameter_evolution.length ++ st " float time series"
          summary := st "Temporal analysis of " ++ natStr parameter_evolution.length ++
            st " ARGO floats"
          sql_query := md.sql_query
          display_components := [st "time_series", st "trends", st "export"]
          query_results := raw_results
          visualization_data := VizData.time_series
            { parameter_evolution := parameter_evolution }
          execution_stats := ExecStats.times parameter_evolution.length
            (sumNat (parameter_evolution.map (fun e => e.temporal_data.length))) } }

/-- `ArgoDataProcessor._process_statistical_data`. -/
def process_statistical_data (raw_results : List Row) (md : SqlGenResult) :
    Except Str ProcResponse := do
  let numeric_columns := [st "latitude", st "longitude"]
  let array_columns := [st "temperature_celsius", st "salinity_psu", st "pressure_dbar"]
  let numericStats ←
    numeric_columns.foldlM
      (fun (acc : List (Str × StatEntry)) col => do
        let values ←
          (raw_results.filter (fun r => !(pyGet r col == PyVal.none))).mapM
            (fun r => py_float (pyGet r col))
        if values.isEmpty then pure acc
        else pure (acc ++ [(col,
          { count := values.length, min := minQ values, max := maxQ values,
            mean := meanQ values,
            std_sq := if values.length > 1 then np_std_sq values else 0 })]))
      []
  let arrayStats :=
    array_columns.foldl
      (fun (acc : List (Str × StatEntry)) col =>
        let all_values :=
          (raw_results.map (fun r => extract_array_data (pyGetD r col (PyVal.list [])))).flatten
        if all_values.isEmpty then acc
        else acc ++ [(col,
          { count := all_values.length, min := minQ all_values, max := maxQ all_values,
            mean := meanQ all_values,
            std_sq := if all_values.length > 1 then np_std_sq all_values else 0 })])
      []
  let statistics := numericStats ++ arrayStats
  pure
    { success := true
      data :=
        { title := st "ARGO Statistical Analysis - " ++ natStr raw_results.length ++
            st " records"
          summary := st "Statistical analysis of " ++ natStr raw_results.length ++
            st " ARGO records"
          sql_query := md.sql_query
          display_components := [st "statistics", st "histograms", st "export"]
          query_results := raw_results
          visualization_data := VizData.statistics statistics
          execution_stats := ExecStats.stats raw_results.length statistics.length } }

/-- `ArgoDataProcessor._analyze_columns`. -/
def analyze_columns (raw_results : List Row) : List (Str × ColInfo) :=
  match raw_results with
  | [] => []
  | sample_row :: _ =>
    sample_row.map (fun p =>
      (p.1,
        { type_name := py_type_name p.2
          is_array := match p.2 with | PyVal.list _ => true | _ => false
          has_nulls := raw_results.any (fun r => pyGet r p.1 == PyVal.none)
          sample_value :=
            if pyTruthy p.2 then (pyToString p.2).take 50 else st "NULL" }))

/-- `ArgoDataProcessor._process_general_data`. -/
def process_general_data (raw_results : List Row) (md : SqlGenResult) :
    Except Str ProcResponse :=
  pure
    { success := true
      data :=
        { title := st "ARGO Data Query Results - " ++ natStr raw_results.length ++
            st " records"
          summary := st "Query returned " ++ natStr raw_results.length ++ st " ARGO records"
          sql_query := md.sql_query
          display_components := [st "data_table", st "export"]
          query_results := raw_results
          visualization_data := VizData.general raw_results (analyze_columns raw_results)
          execution_stats := ExecStats.records raw_results.length } }

/-- `ArgoDataProcessor._process_comparative_data`. -/
def process_comparative_data (raw_results : List Row) (md : SqlGenResult) :
    Except Str ProcResponse := do
  let result ← process_profile_data raw_results md
  pure
    { result with
      data :=
        { result.data with
          title := st "ARGO Comparative Analysis - " ++ natStr raw_results.length ++
            st " records"
          display_components :=
            [st "comparison", st "profiles", st "statistics", st "export"] } }

/-- `ArgoDataProcessor._create_empty_response`. -/
def create_empty_response (md : SqlGenResult) : ProcResponse :=
  { success := true
    data :=
      { title := st "No Results Found"
        summary := st "Query returned no matching records"
        sql_query := md.sql_query
        display_components := [st "message"]
        query_results := []
        visualization_data := VizData.empty
        execution_stats := ExecStats.records 0 } }

/-- `ArgoDataProcessor._create_error_response`. -/
def create_error_response (error_message : Str) (md : SqlGenResult) : ProcResponse :=
  { success := false
    error := some error_message
    data :=
      { title := st "Processing Error"
        summary := st "Error processing query results: " ++ error_message
        sql_query := md.sql_query
        display_components := [st "error"]
        query_results := []
        visualization_data := VizData.empty
        execution_stats := ExecStats.err error_message } }

/-- The strategy dispatch inside the `try` of
`ArgoDataProcessor.process_query_results`. -/
def process_dispatch (raw_results : List Row) (query_metadata : SqlGenResult) :
    Except Str ProcResponse :=
  if raw_results.isEmpty then pure (create_empty_response query_metadata)
  else
    let qt := query_metadata.query_type
    let viz := query_metadata.suggested_visualizations
    if qt == st "geographic" || viz.contains (st "map") then
      process_geographic_data raw_results query_metadata
    else if qt == st "profile" || viz.contains (st "depth_profile") then
      process_profile_data raw_results query_metadata
    else if qt == st "time_series" || viz.contains (st "time_series") then
      process_time_series_data raw_results query_metadata
    else if qt == st "comparative" then
      process_comparative_data raw_results query_metadata
    else if qt == st "statistical" then
      process_statistical_data raw_results query_metadata
    else process_general_data raw_results query_metadata

/-- `ArgoDataProcessor.process_query_results`: strategy dispatch inside a
`try` whose `except` converts any processing exception into the typed
error response. -/
def process_query_results (raw_results : List Row) (query_metadata : SqlGenResult) :
    ProcResponse :=
  match process_dispatch raw_results query_metadata with
  | .ok r => r
  | .error e => create_error_response e query_metadata

/-!
## `mcp/tool_factory.py`, `mcp/tool_registry.py`, `mcp/mcp_client.py`
-/

/-- One RPC issued to the storage client
(`self.db_client.client.rpc(name, params).execute()`); only the
`execute_safe_sql` call site carries its parameter here. -/
structure RpcCall where
  fname : Str
  query_text : Str
deriving DecidableEq

/-- The `.data` attribute of an RPC result: nothing, a row list, or a
dict carrying an `error` key. -/
inductive RpcData where
  | no_data
  | rows (rs : List Row)
  | errDict (msg : Str)

/-- Storage oracle for RPC calls; `Except.error` models a raised
exception. -/
def Db : Type := RpcCall → Except Str RpcData

/-- `{success, tool_name, error}` plus the tool-specific payload fields of
a tool's result dict. -/
structure ToolResult where
  success : Bool
  tool_name : Option Str := Option.none
  error : Option Str := Option.none
  payload : List (Str × PyVal) := []

/-- `MCPToolFactory.execute_validated_query`.  The returned list records
the RPC calls issued to the storage client (always exactly the one
`execute_safe_sql` call — the Python body performs no client-side
validation of `sql_query`). -/
def execute_validated_query (db : Db) (sql_query : Str) (query_type : Str)
    (max_results : Int) : ToolResult × List RpcCall :=
  let call : RpcCall :=
    ⟨st "execute_safe_sql", sql_query ++ st " LIMIT " ++ intStr max_results⟩
  match db call with
  | .error e =>
    ({ success := false, tool_name := some (st "execute_validated_query"),
       error := some e }, [call])
  | .ok (RpcData.errDict msg) =>
    ({ success := false, tool_name := some (st "execute_validated_query"),
       error := some msg }, [call])
  | .ok RpcData.no_data =>
    ({ success := true, tool_name := some (st "execute_validated_query"),
       payload := [(st "results", PyVal.list []), (st "count", PyVal.int 0),
         (st "query_type", PyVal.str query_type), (st "sql_query", PyVal.str sql_query)] },
     [call])
  | .ok (RpcData.rows rs) =>
    ({ success := true, tool_name := some (st "execute_validated_query"),
       payload := [(st "results", PyVal.list (rs.map PyVal.dict)),
         (st "count", PyVal.int rs.length), (st "query_type", PyVal.str query_type),
         (st "sql_query", PyVal.str sql_query)] }, [call])

/-- The names registered by `MCPToolFactory._initialize_tools`. -/
def registered_tool_names : List Str :=
  [st "find_nearest_floats", st "get_regional_stats", st "compare_profiles",
   st "get_float_trajectory", st "execute_validated_query"]

/-- A `{name, parameters}` tool call produced by the language model. -/
structure ToolCall where
  name : Option Str := Option.none
  parameters : List (Str × PyVal) := []

/-- Oracle for `tool_def.execute(**tool_params)`: the registered factory
coroutines together with the storage behind them.  `Except.error` models
a raised exception (including a `TypeError` from unpacking parameters
that do not fit the function signature). -/
def ToolExec : Type := ToolCall → Except Str ToolResult

/-- `ArgoMCPClient._execute_tool`. -/
def execute_tool (tx : ToolExec) (tool_call : ToolCall) : ToolResult :=
  let tool_name := tool_call.name
  if !(match tool_name with
      | some n => registered_tool_names.contains n
      | Option.none => false) then
    { success := false, tool_name := tool_name,
      error := some (st "Unknown tool: " ++
        (match tool_name with | some n => n | Option.none => st "None")) }
  else
    match tx tool_call with
    | .ok r => r
    | .error e => { success := false, tool_name := tool_name, error := some e }

/-- The parsed tool-analysis dict returned by
`GroqLLMManager.generate_tool_analysis` (which guarantees the `success`
and `tool_calls` keys exist). -/
structure Analysis where
  success : Option Bool := Option.none
  error : Option Str := Option.none
  query_type : Option Str := Option.none
  tool_calls : List ToolCall := []
  sql_query : Option Str := Option.none
  explanation : Option Str := Option.none
  confidence : Option ℚ := Option.none

/-- Oracle for `_analyze_query_for_tools` (prompt construction plus
`generate_tool_analysis`), keyed by exactly the data the prompt embeds. -/
def ToolAnalysis : Type := Str → List Chunk → Str → Analysis

/-- The shaped payload of an envelope: the direct path carries the Result
Shaper's output, the mcp path the visualization dict built from tool
results. -/
inductive EnvData where
  | direct (d : ProcData)
  | tools (d : List (Str × PyVal))

/-- The response dicts that reach `QueryRouter.route_query`'s caller.
Every optional field models a dict key that only some producers set;
`none` is an absent key. -/
structure Envelope where
  success : Bool
  error : Option Str := Option.none
  execution_path : Option Str := Option.none
  data : Option EnvData := Option.none
  summary : Option Str := Option.none
  tools_used : Option (List (Option Str)) := Option.none
  raw_tool_results : Option (List ToolResult) := Option.none
  sql_query : Option Str := Option.none
  explanation : Option Str := Option.none
  confidence : Option ℚ := Option.none
  tool_errors : Option (List (Option Str)) := Option.none
  query_type : Option Str := Option.none
  query_text : Option Str := Option.none
  suggested_visualizations : Option (List Str) := Option.none
  tool_calls : Option (List ToolCall) := Option.none

/-- Oracle for `_process_tool_results_for_visualization`: a pure
function of the successful results and the query type.  Its body only
formats the successful results' payloads (float string formatting that
the embedding does not model); no claim observes its output. -/
def ProcessViz : Type := List ToolResult → Str → List (Str × PyVal)

/-- Oracle for `_generate_summary_text`, likewise a pure function of the
successful results and the query type. -/
def SummaryText : Type := List ToolResult → Option Str → Str

/-- `ArgoMCPClient._synthesize_response`. -/
def synthesize_response (pv : ProcessViz) (stx : SummaryText)
    (analysis : Analysis) (tool_results : List ToolResult) : Envelope :=
  let successful_results := tool_results.filter (fun r => r.success)
  if successful_results.isEmpty then
    { success := false
      error := some (st "All tool executions failed")
      tool_errors := some (tool_results.map (fun r => r.error))
      execution_path := some (st "mcp") }
  else
    { success := true
      execution_path := some (st "mcp")
      data := some (EnvData.tools (pv successful_results (analysis.query_type.getD (st "general"))))
      summary := some (stx successful_results analysis.query_type)
      tools_used := some (successful_results.map (fun r => r.tool_name))
      raw_tool_results := some successful_results
      sql_query := Option.none
      explanation := analysis.explanation
      confidence := some (analysis.confidence.getD (85/100)) }

/-- The analysis dict returned unchanged by `process_query_with_tools`
when `analysis.get("success")` is falsy (no `execution_path`,
`tools_used` or `data` key is ever present on it). -/
def analysis_to_envelope (a : Analysis) : Envelope :=
  { success := a.success.getD false
    error := a.error
    query_type := a.query_type
    tool_calls := some a.tool_calls
    sql_query := a.sql_query
    explanation := a.explanation
    confidence := a.confidence }

/-- `ArgoMCPClient.process_query_with_tools`.  All collaborators are
total here (`generate_tool_analysis` and each tool wrapper catch their
own exceptions), so the outer `except` arm is unreachable and the model
is a total function. -/
def process_query_with_tools (rag : Rag) (ta : ToolAnalysis) (tx : ToolExec)
    (pv : ProcessViz) (stx : SummaryText) (user_query session_context : Str) : Envelope :=
  let context_chunks := rag.retrieve_context user_query 5
  let analysis := ta user_query context_chunks session_context
  if !(analysis.success.getD false) then analysis_to_envelope analysis
  else
    let tool_results := analysis.tool_calls.map (execute_tool tx)
    synthesize_response pv stx analysis tool_results

/-!
## `core/query_router.py` — `QueryRouter`
-/

/-- The complexity indicator list of
`QueryRouter._analyze_query_complexity`. -/
def mcp_indicators : List Str :=
  [st "nearest", st "closest", st "nearby", st "around", st "within",
   st "compare", st "versus", st "vs", st "difference", st "between",
   st "average", st "mean", st "statistics", st "summary", st "trend", st "analyze",
   st "arabian sea and bay of bengal",
   st "multiple regions",
   st "bgc comparison", st "oxygen levels across",
   st "trajectory", st "path", st "route"]

/-- The `regions_mentioned` count of `QueryRouter._analyze_query_complexity`
(the sum of the three region-marker membership tests on the lowered query). -/
def regions_mentioned (ql : Str) : Nat :=
  (if isSubstr (st "arabian") ql then 1 else 0) +
  (if isSubstr (st "bengal") ql then 1 else 0) +
  (if isSubstr (st "equator") ql then 1 else 0)

/-- `QueryRouter._analyze_query_complexity`. -/
def analyze_query_complexity (query : Str) : Str :=
  let ql := pyLower query
  if mcp_indicators.any (fun i => isSubstr i ql) then st "complex"
  else
    if regions_mentioned ql > 1 then st "complex" else st "simple"

/-- The execution path `QueryRouter.route_query` dispatches to: `"mcp"`
when the complexity heuristic answers `"complex"`, else
`"direct_sql"`. -/
def route_path (query : Str) : Str :=
  if analyze_query_complexity query == st "complex" then st "mcp" else st "direct_sql"

/-- The SQL-generation response returned unchanged by
`_process_direct_sql` when `sql_response.get("success")` is falsy (no
`execution_path` key is present on it). -/
def sqlgen_to_envelope (r : SqlGenResult) : Envelope :=
  { success := r.success
    sql_query := r.sql_query
    query_type := some r.query_type
    query_text := some r.query_text
    suggested_visualizations := some r.suggested_visualizations
    explanation := some r.explanation
    confidence := some r.confidence }

/-- Oracle for `SupabaseClient.execute_query` (which catches its own
exceptions and falls back to filter-based execution, so it is total and
returns a row list). -/
def ExecQuery : Type := Option Str → List Row

/-- `QueryRouter._process_direct_sql`.  All collaborators are total
(`generate_query` and `process_query_results` catch their own
exceptions, the storage client returns `[]` on failure), so the `except`
arm is unreachable and the model is total. -/
def process_direct_sql (rag : Rag) (llm : LlmSql) (nowMinus : Nat → Str) (db : ExecQuery)
    (user_query session_context : Str) : Envelope :=
  let sql_response := generate_query rag llm nowMinus user_query session_context
  if !sql_response.success then sqlgen_to_envelope sql_response
  else
    let sql_query := sql_response.sql_query
    let raw_results := db sql_query
    let sql_response2 := { sql_response with query_text := user_query }
    let processed_results := process_query_results raw_results sql_response2
    { success := true
      execution_path := some (st "direct_sql")
      data := some (EnvData.direct processed_results.data)
      sql_query := sql_query
      explanation := some sql_response.explanation
      confidence := some sql_response.confidence }

/-- `QueryRouter.route_query`. -/
def route_query (rag : Rag) (llm : LlmSql) (nowMinus : Nat → Str) (db : ExecQuery)
    (ta : ToolAnalysis) (tx : ToolExec) (pv : ProcessViz) (stx : SummaryText)
    (user_query session_context : Str) : Envelope :=
  if analyze_query_complexity user_query == st "complex" then
    process_query_with_tools rag ta tx pv stx user_query session_context
  else
    process_direct_sql rag llm nowMinus db user_query session_context

/-!
## Safety of generated SQL (claims C1/C2/C10 support)
-/

/-- `s` contains no mutating keyword, in the sense of `_validate_sql`'s
case-insensitive check. -/
def ND (s : Str) : Prop := ∀ k ∈ dangerous_keywords, ¬(k <:+: pyUpper s)

theorem nd_of_decide (s : Str)
    (h : dangerous_keywords.all (fun k => !(isSubstr k (pyUpper s))) = true) : ND s := by
  intro k hk hinf
  have hb := List.all_eq_true.mp h k hk
  rw [(isSubstr_iff k (pyUpper s)).mpr hinf] at hb
  simp at hb

theorem dangerous_chars : ∀ k ∈ dangerous_keywords, k.all isKwChar = true := by decide

theorem dangerous_nonempty : ∀ k ∈ dangerous_keywords, k ≠ [] := by decide

theorem toUpper_of_ws {c : Char} (h : isPySpace c = true) : c.toUpper = c := by
  simp [isPySpace] at h
  rcases h with ((((hc | hc) | hc) | hc) | hc) | hc <;> (subst hc; decide)

theorem kwChar_ws_false {c : Char} (h : isPySpace c = true) : isKwChar c = false := by
  simp [isPySpace] at h
  rcases h with ((((hc | hc) | hc) | hc) | hc) | hc <;> (subst hc; decide)

theorem dateChar_facts (c : Char) (h : (c.isDigit || c == '-') = true) :
    isKwChar c.toUpper = false ∧ isPySpace c = false := by
  have hnat : c.toNat = c.val.toBitVec.toNat := rfl
  have hv : 45 ≤ c.toNat ∧ c.toNat ≤ 57 := by
    rw [Bool.or_eq_true] at h
    cases h with
    | inl h =>
      simp [Char.isDigit, Char.le_def, UInt32.le_def, BitVec.le_def] at h
      exact ⟨by omega, by omega⟩
    | inr h =>
      have hc : c = '-' := by simpa using h
      subst hc
      exact ⟨by decide, by decide⟩
  have hup : c.toUpper = c := by
    simp [Char.toUpper]
    intro h1 h2
    omega
  rw [hup]
  constructor
  · cases hkw : isKwChar c with
    | false => rfl
    | true =>
      exfalso
      simp [isKwChar, Char.le_def, UInt32.le_def, BitVec.le_def] at hkw
      omega
  · cases hsp : isPySpace c with
    | false => rfl
    | true =>
      exfalso
      simp [isPySpace] at hsp
      rcases hsp with ((((hc | hc) | hc) | hc) | hc) | hc <;>
        (subst hc; exact absurd hv (by decide))

/-- Closing an append against a mutating-keyword occurrence: either side
contains it, unless a junction character could belong to a keyword. -/
theorem nd_append {u v : Str} (hu : ND u) (hv : ND v)
    (hb : (∀ c, u.getLast? = some c → isKwChar c.toUpper = false) ∨
      (∀ c, v.head? = some c → isKwChar c.toUpper = false)) : ND (u ++ v) := by
  intro k hk hinf
  rw [show pyUpper (u ++ v) = pyUpper u ++ pyUpper v from List.map_append _ _ _] at hinf
  rcases substr_append_cases hinf with h1 | h2 | ⟨⟨c1, hgl, hc1⟩, ⟨c2, hhd, hc2⟩⟩
  · exact hu k hk h1
  · exact hv k hk h2
  · have hall := List.all_eq_true.mp (dangerous_chars k hk)
    cases hb with
    | inl hbu =>
      rw [show pyUpper u = u.map Char.toUpper from rfl, List.getLast?_map] at hgl
      obtain ⟨c0, hc0, hceq⟩ := Option.map_eq_some'.mp hgl
      have hfalse := hbu c0 hc0
      rw [hceq] at hfalse
      rw [hall c1 hc1] at hfalse
      exact absurd hfalse (by simp)
    | inr hbv =>
      rw [show pyUpper v = v.map Char.toUpper from rfl, List.head?_map] at hhd
      obtain ⟨c0, hc0, hceq⟩ := Option.map_eq_some'.mp hhd
      have hfalse := hbv c0 hc0
      rw [hceq] at hfalse
      rw [hall c2 hc2] at hfalse
      exact absurd hfalse (by simp)

theorem nd_sep : ND (st " AND ") := nd_of_decide _ (by decide)

theorem nd_join {l : List Str} (h : ∀ s ∈ l, ND s) : ND (pyJoin (st " AND ") l) := by
  induction l with
  | nil =>
    intro k hk hinf
    simp only [pyJoin, pyUpper, List.map_nil, List.infix_nil] at hinf
    exact absurd hinf (dangerous_nonempty k hk)
  | cons x xs ih =>
    cases xs with
    | nil => simpa [pyJoin] using h x (List.mem_cons_self _ _)
    | cons y ys =>
      have hx : ND x := h x (List.mem_cons_self _ _)
      have hrest : ND (pyJoin (st " AND ") (y :: ys)) :=
        ih (fun s hs => h s (List.mem_cons_of_mem _ hs))
      have hsep_rest : ND (st " AND " ++ pyJoin (st " AND ") (y :: ys)) := by
        apply nd_append nd_sep hrest
        left
        intro c hc
        have : c = ' ' := by
          have : (st " AND ").getLast? = some ' ' := by decide
          rw [this] at hc
          exact (Option.some_inj.mp hc).symm
        subst this
        decide
      have : ND (x ++ (st " AND " ++ pyJoin (st " AND ") (y :: ys))) := by
        apply nd_append hx hsep_rest
        right
        intro c hc
        have : c = ' ' := by
          rw [List.head?_append] at hc
          have h5 : (st " AND ").head? = some ' ' := by decide
          rw [h5] at hc
          exact (Option.some_inj.mp hc).symm
        subst this
        decide
      show ND (pyJoin (st " AND ") (x :: y :: ys))
      rw [show pyJoin (st " AND ") (x :: y :: ys) =
        x ++ st " AND " ++ pyJoin (st " AND ") (y :: ys) from rfl, List.append_assoc]
      exact this

theorem validate_sql_eq (s : Str) :
    validate_sql (some s) =
      (!s.isEmpty && isSubstr (st "SELECT") (pyUpper s) && isSubstr (st "FROM") (pyUpper s) &&
        !(dangerous_keywords.any (fun k => isSubstr k (pyUpper s))) &&
        valid_tables.any (fun t => isSubstr t s)) := by
  unfold validate_sql
  dsimp only
  split_ifs with h1 h2 h3 h4 h5 <;> simp_all

theorem nd_of_chars {s : Str} (h : ∀ c ∈ s, isKwChar c.toUpper = false) : ND s := by
  intro k hk hinf
  obtain ⟨c, hc⟩ := exists_mem_of_ne_nil (dangerous_nonempty k hk)
  have hcs : c ∈ pyUpper s := List.IsInfix.subset hinf hc
  obtain ⟨c0, hc0, hceq⟩ := List.mem_map.mp hcs
  have hkw := List.all_eq_true.mp (dangerous_chars k hk) c hc
  rw [← hceq] at hkw
  rw [h c0 hc0] at hkw
  exact absurd hkw (by simp)

/-- The date strings produced by `strftime('%Y-%m-%d')` contain only
digits and hyphens. -/
def DateOk (nowMinus : Nat → Str) : Prop :=
  ∀ d, ∀ c ∈ nowMinus d, (c.isDigit || c == '-') = true

theorem nd_date {nowMinus : Nat → Str} (h : DateOk nowMinus) (d : Nat) :
    ND (nowMinus d) :=
  nd_of_chars (fun c hc => (dateChar_facts c (h d c hc)).1)

theorem nd_time_condition {nowMinus : Nat → Str} (h : DateOk nowMinus) (d : Nat) :
    ND (st "profile_date >= \x27" ++ nowMinus d ++ st "\x27") := by
  have h1 : ND (nowMinus d ++ st "\x27") := by
    apply nd_append (nd_date h d) (nd_of_decide _ (by decide))
    right
    intro c hc
    have : c = '\x27' := by
      have he : (st "\x27").head? = some '\x27' := by decide
      rw [he] at hc
      exact (Option.some_inj.mp hc).symm
    subst this
    decide
  have h2 : ND (st "profile_date >= \x27" ++ (nowMinus d ++ st "\x27")) := by
    apply nd_append (nd_of_decide _ (by decide)) h1
    left
    intro c hc
    have : c = '\x27' := by
      have he : (st "profile_date >= \x27").getLast? = some '\x27' := by decide
      rw [he] at hc
      exact (Option.some_inj.mp hc).symm
    subst this
    decide
  rw [List.append_assoc]
  exact h2

/-- Core of the template-safety argument: a stripped instantiated
template passes `_validate_sql` provided the fixed text carries
`SELECT`/`FROM`/a valid table and no component contains a mutating
keyword. -/
theorem validate_strip_of {X : Str}
    (hsel : (st "SELECT") <:+: X)
    (hfrom : (st "FROM") <:+: X)
    (htab : ∃ t ∈ valid_tables, t <:+: X)
    (hnd : ND X) :
    validate_sql (some (pyStrip X)) = true := by
  rw [validate_sql_eq]
  have hsel2 : (st "SELECT") <:+: pyStrip X := substr_pyStrip (by decide) (by decide) hsel
  have hfrom2 : (st "FROM") <:+: pyStrip X := substr_pyStrip (by decide) (by decide) hfrom
  obtain ⟨t, htm, hti⟩ := htab
  have htfacts : t ≠ [] ∧ ∀ c ∈ t, isPySpace c = false := by
    simp only [valid_tables, List.mem_cons, List.not_mem_nil, or_false] at htm
    rcases htm with h | h | h | h <;> (subst h; exact ⟨by decide, by decide⟩)
  have hti2 : t <:+: pyStrip X := substr_pyStrip htfacts.1 htfacts.2 hti
  have hne : (pyStrip X).isEmpty = false := by
    cases hps : pyStrip X with
    | nil =>
      rw [hps] at hsel2
      rw [List.infix_nil] at hsel2
      exact absurd hsel2 (by decide)
    | cons a l => rfl
  have hselu : isSubstr (st "SELECT") (pyUpper (pyStrip X)) = true := by
    rw [isSubstr_iff]
    have hm := List.IsInfix.map Char.toUpper hsel2
    rwa [show (st "SELECT").map Char.toUpper = st "SELECT" from by decide] at hm
  have hfromu : isSubstr (st "FROM") (pyUpper (pyStrip X)) = true := by
    rw [isSubstr_iff]
    have hm := List.IsInfix.map Char.toUpper hfrom2
    rwa [show (st "FROM").map Char.toUpper = st "FROM" from by decide] at hm
  have hdang : dangerous_keywords.any (fun k => isSubstr k (pyUpper (pyStrip X))) = false := by
    cases hd : dangerous_keywords.any (fun k => isSubstr k (pyUpper (pyStrip X))) with
    | false => rfl
    | true =>
      exfalso
      obtain ⟨k, hk, hki⟩ := List.any_eq_true.mp hd
      rw [isSubstr_iff] at hki
      have hstep : pyUpper (pyStrip X) <:+: pyUpper X :=
        List.IsInfix.map Char.toUpper (strip_substr_self X)
      exact hnd k hk (List.IsInfix.trans hki hstep)
  have htabany : valid_tables.any (fun t' => isSubstr t' (pyStrip X)) = true :=
    List.any_eq_true.mpr ⟨t, htm, (isSubstr_iff _ _).mpr hti2⟩
  rw [hne, hselu, hfromu, hdang, htabany]
  rfl

/-- Template instantiation safety, shared by the five reachable
templates (the fixed segments all end/begin in whitespace at every
junction with interpolated text). -/
theorem validate_tmpl_inst
    {pre mid suf : Str} (conds lim : Str)
    (hpre_nd : ND pre) (hmid_nd : ND mid) (hsuf_nd : ND suf)
    (hconds_nd : ND conds) (hlim_nd : ND lim)
    (hpre_last : pre.getLast? = some ' ')
    (hmid_head : ∃ c, mid.head? = some c ∧ isPySpace c = true)
    (hmid_last : mid.getLast? = some ' ')
    (hsuf_head : suf.head? = some '\n')
    (hsel : (st "SELECT") <:+: pre)
    (hfrom : (st "FROM") <:+: pre)
    (htab : ∃ t ∈ valid_tables, t <:+: pre) :
    validate_sql (some (pyStrip (pre ++ conds ++ mid ++ lim ++ suf))) = true := by
  apply validate_strip_of
  · exact substr_append_left _ (substr_append_left _ (substr_append_left _
      (substr_append_left _ hsel)))
  · exact substr_append_left _ (substr_append_left _ (substr_append_left _
      (substr_append_left _ hfrom)))
  · obtain ⟨t, htm, hti⟩ := htab
    exact ⟨t, htm, substr_append_left _ (substr_append_left _ (substr_append_left _
      (substr_append_left _ hti)))⟩
  · have nd4 : ND (lim ++ suf) := by
      apply nd_append hlim_nd hsuf_nd
      right
      intro c hc
      rw [hsuf_head] at hc
      rw [← Option.some_inj.mp hc]
      decide
    have nd3 : ND (mid ++ (lim ++ suf)) := by
      apply nd_append hmid_nd nd4
      left
      intro c hc
      rw [hmid_last] at hc
      rw [← Option.some_inj.mp hc]
      decide
    have nd2 : ND (conds ++ (mid ++ (lim ++ suf))) := by
      apply nd_append hconds_nd nd3
      right
      intro c hc
      obtain ⟨cm, hcm, hcmws⟩ := hmid_head
      rw [List.head?_append, hcm] at hc
      have : cm = c := Option.some_inj.mp hc
      subst this
      rw [toUpper_of_ws hcmws]
      exact kwChar_ws_false hcmws
    have nd1 : ND (pre ++ (conds ++ (mid ++ (lim ++ suf)))) := by
      apply nd_append hpre_nd nd2
      left
      intro c hc
      rw [hpre_last] at hc
      rw [← Option.some_inj.mp hc]
      decide
    have he : pre ++ conds ++ mid ++ lim ++ suf =
        pre ++ (conds ++ (mid ++ (lim ++ suf))) := by
      simp [List.append_assoc]
    rw [he]
    exact nd1

theorem validate_tmpl_basic {conds lim : Str} (hc : ND conds) (hl : ND lim) :
    validate_sql (some (pyStrip (tmpl_basic_floats conds lim))) = true :=
  validate_tmpl_inst conds lim (nd_of_decide _ (by decide)) (nd_of_decide _ (by decide))
    (nd_of_decide _ (by decide)) hc hl (by decide) ⟨' ', by decide, by decide⟩ (by decide)
    (by decide) ((isSubstr_iff _ _).mp (by decide)) ((isSubstr_iff _ _).mp (by decide))
    ⟨st "argo_profiles", by decide, (isSubstr_iff _ _).mp (by decide)⟩

theorem validate_tmpl_temperature {conds lim : Str} (hc : ND conds) (hl : ND lim) :
    validate_sql (some (pyStrip (tmpl_temperature_profiles conds lim))) = true :=
  validate_tmpl_inst conds lim (nd_of_decide _ (by decide)) (nd_of_decide _ (by decide))
    (nd_of_decide _ (by decide)) hc hl (by decide) ⟨' ', by decide, by decide⟩ (by decide)
    (by decide) ((isSubstr_iff _ _).mp (by decide)) ((isSubstr_iff _ _).mp (by decide))
    ⟨st "argo_profiles", by decide, (isSubstr_iff _ _).mp (by decide)⟩

theorem validate_tmpl_salinity {conds lim : Str} (hc : ND conds) (hl : ND lim) :
    validate_sql (some (pyStrip (tmpl_salinity_profiles conds lim))) = true :=
  validate_tmpl_inst conds lim (nd_of_decide _ (by decide)) (nd_of_decide _ (by decide))
    (nd_of_decide _ (by decide)) hc hl (by decide) ⟨' ', by decide, by decide⟩ (by decide)
    (by decide) ((isSubstr_iff _ _).mp (by decide)) ((isSubstr_iff _ _).mp (by decide))
    ⟨st "argo_profiles", by decide, (isSubstr_iff _ _).mp (by decide)⟩

theorem validate_tmpl_bgc {conds lim : Str} (hc : ND conds) (hl : ND lim) :
    validate_sql (some (pyStrip (tmpl_bgc_profiles conds lim))) = true :=
  validate_tmpl_inst conds lim (nd_of_decide _ (by decide)) (nd_of_decide _ (by decide))
    (nd_of_decide _ (by decide)) hc hl (by decide) ⟨'\n', by decide, by decide⟩ (by decide)
    (by decide) ((isSubstr_iff _ _).mp (by decide)) ((isSubstr_iff _ _).mp (by decide))
    ⟨st "argo_profiles", by decide, (isSubstr_iff _ _).mp (by decide)⟩

theorem validate_tmpl_trajectory {conds lim : Str} (hc : ND conds) (hl : ND lim) :
    validate_sql (some (pyStrip (tmpl_trajectory conds lim))) = true :=
  validate_tmpl_inst conds lim (nd_of_decide _ (by decide)) (nd_of_decide _ (by decide))
    (nd_of_decide _ (by decide)) hc hl (by decide) ⟨'\n', by decide, by decide⟩ (by decide)
    (by decide) ((isSubstr_iff _ _).mp (by decide)) ((isSubstr_iff _ _).mp (by decide))
    ⟨st "argo_profiles", by decide, (isSubstr_iff _ _).mp (by decide)⟩

theorem intent_region_cases (q : Str) :
    (analyze_query_intent q).region = Option.none ∨
    (analyze_query_intent q).region = some (st "arabian_sea") ∨
    (analyze_query_intent q).region = some (st "bay_of_bengal") ∨
    (analyze_query_intent q).region = some (st "equator") := by
  unfold analyze_query_intent
  dsimp only
  split_ifs <;> simp

theorem intent_timeframe_cases (q : Str) :
    (analyze_query_intent q).timeframe = Option.none ∨
    (analyze_query_intent q).timeframe = some (st "last_month") ∨
    (analyze_query_intent q).timeframe = some (st "last_6_months") ∨
    (analyze_query_intent q).timeframe = some (st "last_year") := by
  unfold analyze_query_intent
  dsimp only
  split_ifs <;> simp

theorem intent_float_type_cases (q : Str) :
    (analyze_query_intent q).float_type = Option.none ∨
    (analyze_query_intent q).float_type = some (st "BGC") ∨
    (analyze_query_intent q).float_type = some (st "Core") := by
  unfold analyze_query_intent
  dsimp only
  split_ifs <;> simp

/-- Every region name the intent analyzer can produce is a key of
`Config.REGIONS`, so the `REGIONS[...]` lookups cannot raise. -/
theorem regionLookup_of_intent {q : Str} {r : Str}
    (h : (analyze_query_intent q).region = some r) :
    ∃ cfg, regionLookup r = some cfg ∧ ND (region_condition cfg) := by
  rcases intent_region_cases q with h0 | h0 | h0 | h0 <;> rw [h0] at h
  · exact absurd h (by simp)
  all_goals
    rw [← Option.some_inj.mp h]
  · exact ⟨⟨8, 30, 50, 75⟩, by decide, nd_of_decide _ (by decide)⟩
  · exact ⟨⟨5, 22, 80, 100⟩, by decide, nd_of_decide _ (by decide)⟩
  · exact ⟨⟨-5, 5, -180, 180⟩, by decide, nd_of_decide _ (by decide)⟩

/-- The conditions list assembled by `_generate_profile_query` from an
analyzer intent consists of keyword-free pieces. -/
theorem profile_conds_nd {q : Str} :
    ∃ l1, (match (analyze_query_intent q).region with
      | Option.none => (pure [st "1=1"] : Except Str (List Str))
      | some r =>
        match regionLookup r with
        | Option.none => Except.error (st "\x27" ++ r ++ st "\x27")
        | some cfg => pure ([st "1=1"] ++ [region_condition cfg])) = .ok l1 ∧
      ∀ p ∈ l1, ND p := by
  cases hr : (analyze_query_intent q).region with
  | none => exact ⟨[st "1=1"], rfl, by
      intro p hp
      simp at hp
      subst hp
      exact nd_of_decide _ (by decide)⟩
  | some r =>
    obtain ⟨cfg, hcfg, hnd⟩ := regionLookup_of_intent hr
    refine ⟨[st "1=1", region_condition cfg], by dsimp only; rw [hcfg]; rfl, ?_⟩
    intro p hp
    simp at hp
    rcases hp with hp | hp
    · subst hp; exact nd_of_decide _ (by decide)
    · subst hp; exact hnd

/-- Adding the timeframe condition preserves keyword-freeness. -/
theorem time_conds_nd {nowMinus : Nat → Str} (hnm : DateOk nowMinus)
    {l1 : List Str} (h1 : ∀ p ∈ l1, ND p) (tf : Option Str) :
    ∀ p ∈ (match tf with
      | Option.none => l1
      | some tf0 =>
        match build_time_condition nowMinus tf0 with
        | Option.none => l1
        | some tc => l1 ++ [tc]), ND p := by
  cases tf with
  | none => exact h1
  | some tf0 =>
    dsimp only
    cases htc : build_time_condition nowMinus tf0 with
    | none => exact h1
    | some tc =>
      intro p hp
      rw [List.mem_append] at hp
      cases hp with
      | inl hp => exact h1 p hp
      | inr hp =>
        rw [List.mem_singleton] at hp
        subst hp
        unfold build_time_condition at htc
        split_ifs at htc <;>
          (rw [← Option.some_inj.mp htc]; exact nd_time_condition hnm _)

set_option maxHeartbeats 1000000 in
/-- `_generate_profile_query` on an analyzer intent always succeeds, with
confidence 0.9 and SQL that passes `_validate_sql`. -/
theorem generate_profile_query_spec {nowMinus : Nat → Str} (hnm : DateOk nowMinus) (q : Str) :
    ∃ rd, generate_profile_query nowMinus (analyze_query_intent q) q = .ok rd ∧
      rd.success = some true ∧ rd.confidence = some (9/10) ∧
      rd.query_type = some (st "profile") ∧
      rd.suggested_visualizations = some [st "profiles", st "map", st "table"] ∧
      validate_sql rd.sql_query = true := by
  have hlim : ND (natStr 100) := nd_of_decide _ (by decide)
  have hone : ND (st "1=1") := nd_of_decide _ (by decide)
  rcases intent_region_cases q with h0 | h0 | h0 | h0
  · unfold generate_profile_query
    rw [h0]
    dsimp only [Bind.bind, Except.bind, Pure.pure, Except.pure]
    have hndl1 : ∀ p ∈ [st "1=1"], ND p := by
      intro p hp
      rw [List.mem_singleton] at hp
      subst hp
      exact hone
    have hjoin := nd_join (time_conds_nd hnm hndl1 (analyze_query_intent q).timeframe)
    split_ifs with h1 h2 h3
    · exact ⟨_, rfl, rfl, rfl, rfl, rfl, validate_tmpl_salinity hjoin hlim⟩
    · exact ⟨_, rfl, rfl, rfl, rfl, rfl, validate_tmpl_bgc hjoin hlim⟩
    · exact ⟨_, rfl, rfl, rfl, rfl, rfl, validate_tmpl_bgc hjoin hlim⟩
    · exact ⟨_, rfl, rfl, rfl, rfl, rfl, validate_tmpl_temperature hjoin hlim⟩
  · unfold generate_profile_query
    rw [h0]
    dsimp only [Bind.bind, Except.bind, Pure.pure, Except.pure]
    rw [show regionLookup (st "arabian_sea") = some ⟨8, 30, 50, 75⟩ from by decide]
    dsimp only [Bind.bind, Except.bind, Pure.pure, Except.pure]
    have hndl1 : ∀ p ∈ [st "1=1"] ++ [region_condition ⟨8, 30, 50, 75⟩], ND p := by
      intro p hp
      rcases List.mem_append.mp hp with hp | hp <;> rw [List.mem_singleton] at hp <;> subst hp
      · exact hone
      · exact nd_of_decide _ (by decide)
    have hjoin := nd_join (time_conds_nd hnm hndl1 (analyze_query_intent q).timeframe)
    split_ifs with h1 h2 h3
    · exact ⟨_, rfl, rfl, rfl, rfl, rfl, validate_tmpl_salinity hjoin hlim⟩
    · exact ⟨_, rfl, rfl, rfl, rfl, rfl, validate_tmpl_bgc hjoin hlim⟩
    · exact ⟨_, rfl, rfl, rfl, rfl, rfl, validate_tmpl_bgc hjoin hlim⟩
    · exact ⟨_, rfl, rfl, rfl, rfl, rfl, validate_tmpl_temperature hjoin hlim⟩
  · unfold generate_profile_query
    rw [h0]
    dsimp only [Bind.bind, Except.bind, Pure.pure, Except.pure]
    rw [show regionLookup (st "bay_of_bengal") = some ⟨5, 22, 80, 100⟩ from by decide]
    dsimp only [Bind.bind, Except.bind, Pure.pure, Except.pure]
    have hndl1 : ∀ p ∈ [st "1=1"] ++ [region_condition ⟨5, 22, 80, 100⟩], ND p := by
      intro p hp
      rcases List.mem_append.mp hp with hp | hp <;> rw [List.mem_singleton] at hp <;> subst hp
      · exact hone
      · exact nd_of_decide _ (by decide)
    have hjoin := nd_join (time_conds_nd hnm hndl1 (analyze_query_intent q).timeframe)
    split_ifs with h1 h2 h3
    · exact ⟨_, rfl, rfl, rfl, rfl, rfl, validate_tmpl_salinity hjoin hlim⟩
    · exact ⟨_, rfl, rfl, rfl, rfl, rfl, validate_tmpl_bgc hjoin hlim⟩
    · exact ⟨_, rfl, rfl, rfl, rfl, rfl, validate_tmpl_bgc hjoin hlim⟩
    · exact ⟨_, rfl, rfl, rfl, rfl, rfl, validate_tmpl_temperature hjoin hlim⟩
  · unfold generate_profile_query
    rw [h0]
    dsimp only [Bind.bind, Except.bind, Pure.pure, Except.pure]
    rw [show regionLookup (st "equator") = some ⟨-5, 5, -180, 180⟩ from by decide]
    dsimp only [Bind.bind, Except.bind, Pure.pure, Except.pure]
    have hndl1 : ∀ p ∈ [st "1=1"] ++ [region_condition ⟨-5, 5, -180, 180⟩], ND p := by
      intro p hp
      rcases List.mem_append.mp hp with hp | hp <;> rw [List.mem_singleton] at hp <;> subst hp
      · exact hone
      · exact nd_of_decide _ (by decide)
    have hjoin := nd_join (time_conds_nd hnm hndl1 (analyze_query_intent q).timeframe)
    split_ifs with h1 h2 h3
    · exact ⟨_, rfl, rfl, rfl, rfl, rfl, validate_tmpl_salinity hjoin hlim⟩
    · exact ⟨_, rfl, rfl, rfl, rfl, rfl, validate_tmpl_bgc hjoin hlim⟩
    · exact ⟨_, rfl, rfl, rfl, rfl, rfl, validate_tmpl_bgc hjoin hlim⟩
    · exact ⟨_, rfl, rfl, rfl, rfl, rfl, validate_tmpl_temperature hjoin hlim⟩

theorem float_conds_nd {q : Str} {l1 : List Str} (h1 : ∀ p ∈ l1, ND p) :
    ∀ p ∈ (match (analyze_query_intent q).float_type with
      | Option.none => l1
      | some ft => l1 ++ [st "float_category = \x27" ++ ft ++ st "\x27"]), ND p := by
  rcases intent_float_type_cases q with h | h | h <;> rw [h] <;> dsimp only
  · exact h1
  · intro p hp
    rcases List.mem_append.mp hp with hp | hp
    · exact h1 p hp
    · rw [List.mem_singleton] at hp
      subst hp
      exact nd_of_decide _ (by decide)
  · intro p hp
    rcases List.mem_append.mp hp with hp | hp
    · exact h1 p hp
    · rw [List.mem_singleton] at hp
      subst hp
      exact nd_of_decide _ (by decide)

set_option maxHeartbeats 1000000 in
/-- `_generate_template_fallback` never returns a `success=True` dict
whose SQL fails `_validate_sql` (the BGC intent path raises a `KeyError`
on the nonexistent `"bgc_data"` template and comes back `success=False`
instead). -/
theorem generate_template_fallback_spec {nowMinus : Nat → Str} (hnm : DateOk nowMinus)
    (q : Str)
    (hs : (generate_template_fallback nowMinus (analyze_query_intent q)).success.getD false
      = true) :
    validate_sql (generate_template_fallback nowMinus (analyze_query_intent q)).sql_query
      = true := by
  have hone : ND (st "1=1") := nd_of_decide _ (by decide)
  unfold generate_template_fallback at hs ⊢
  dsimp only [Bind.bind, Except.bind, Pure.pure, Except.pure] at hs ⊢
  set lim := (if (analyze_query_intent q).statistics then natStr 1000 else natStr 100)
    with hlimdef
  have hlim : ND lim := by
    rw [hlimdef]
    split_ifs <;> exact nd_of_decide _ (by decide)
  rcases intent_region_cases q with h0 | h0 | h0 | h0
  · rw [h0] at hs ⊢
    dsimp only [Bind.bind, Except.bind, Pure.pure, Except.pure] at hs ⊢
    have hnd1 : ∀ p ∈ [st "1=1"], ND p := by
      intro p hp
      rw [List.mem_singleton] at hp
      subst hp
      exact hone
    have hjoin := nd_join (time_conds_nd hnm (float_conds_nd (q := q) hnd1)
      (analyze_query_intent q).timeframe)
    split_ifs at hs ⊢ with h1 h2 h3
    · exact validate_tmpl_temperature hjoin hlim
    · exact validate_tmpl_trajectory hjoin hlim
    · rw [show sql_templates (st "bgc_data") = Option.none from rfl] at hs
      dsimp only at hs
      simp at hs
    · exact validate_tmpl_basic hjoin hlim
  · rw [h0] at hs ⊢
    dsimp only [Bind.bind, Except.bind, Pure.pure, Except.pure] at hs ⊢
    rw [show regionLookup (st "arabian_sea") = some ⟨8, 30, 50, 75⟩ from by decide] at hs ⊢
    dsimp only [Bind.bind, Except.bind, Pure.pure, Except.pure] at hs ⊢
    have hnd1 : ∀ p ∈ [st "1=1"] ++ [region_condition ⟨8, 30, 50, 75⟩], ND p := by
      intro p hp
      rcases List.mem_append.mp hp with hp | hp <;> rw [List.mem_singleton] at hp <;> subst hp
      · exact hone
      · exact nd_of_decide _ (by decide)
    have hjoin := nd_join (time_conds_nd hnm (float_conds_nd (q := q) hnd1)
      (analyze_query_intent q).timeframe)
    split_ifs at hs ⊢ with h1 h2 h3
    · exact validate_tmpl_temperature hjoin hlim
    · exact validate_tmpl_trajectory hjoin hlim
    · rw [show sql_templates (st "bgc_data") = Option.none from rfl] at hs
      dsimp only at hs
      simp at hs
    · exact validate_tmpl_basic hjoin hlim
  · rw [h0] at hs ⊢
    dsimp only [Bind.bind, Except.bind, Pure.pure, Except.pure] at hs ⊢
    rw [show regionLookup (st "bay_of_bengal") = some ⟨5, 22, 80, 100⟩ from by decide] at hs ⊢
    dsimp only [Bind.bind, Except.bind, Pure.pure, Except.pure] at hs ⊢
    have hnd1 : ∀ p ∈ [st "1=1"] ++ [region_condition ⟨5, 22, 80, 100⟩], ND p := by
      intro p hp
      rcases List.mem_append.mp hp with hp | hp <;> rw [List.mem_singleton] at hp <;> subst hp
      · exact hone
      · exact nd_of_decide _ (by decide)
    have hjoin := nd_join (time_conds_nd hnm (float_conds_nd (q := q) hnd1)
      (analyze_query_intent q).timeframe)
    split_ifs at hs ⊢ with h1 h2 h3
    · exact validate_tmpl_temperature hjoin hlim
    · exact validate_tmpl_trajectory hjoin hlim
    · rw [show sql_templates (st "bgc_data") = Option.none from rfl] at hs
      dsimp only at hs
      simp at hs
    · exact validate_tmpl_basic hjoin hlim
  · rw [h0] at hs ⊢
    dsimp only [Bind.bind, Except.bind, Pure.pure, Except.pure] at hs ⊢
    rw [show regionLookup (st "equator") = some ⟨-5, 5, -180, 180⟩ from by decide] at hs ⊢
    dsimp only [Bind.bind, Except.bind, Pure.pure, Except.pure] at hs ⊢
    have hnd1 : ∀ p ∈ [st "1=1"] ++ [region_condition ⟨-5, 5, -180, 180⟩], ND p := by
      intro p hp
      rcases List.mem_append.mp hp with hp | hp <;> rw [List.mem_singleton] at hp <;> subst hp
      · exact hone
      · exact nd_of_decide _ (by decide)
    have hjoin := nd_join (time_conds_nd hnm (float_conds_nd (q := q) hnd1)
      (analyze_query_intent q).timeframe)
    split_ifs at hs ⊢ with h1 h2 h3
    · exact validate_tmpl_temperature hjoin hlim
    · exact validate_tmpl_trajectory hjoin hlim
    · rw [show sql_templates (st "bgc_data") = Option.none from rfl] at hs
      dsimp only at hs
      simp at hs
    · exact validate_tmpl_basic hjoin hlim

theorem findSome?_some {α β : Type} {f : α → Option β} {l : List α} {v : β}
    (h : l.findSome? f = some v) : ∃ x ∈ l, f x = some v := by
  induction l with
  | nil => simp [List.findSome?] at h
  | cons a as ih =>
    rw [List.findSome?] at h
    cases hf : f a with
    | some w =>
      rw [hf] at h
      exact ⟨a, List.mem_cons_self _ _, hf.trans h⟩
    | none =>
      rw [hf] at h
      obtain ⟨x, hx, hfx⟩ := ih h
      exact ⟨x, List.mem_cons_of_mem _ hx, hfx⟩

theorem validate_components {s : Str} (h : validate_sql (some s) = true) :
    ND s ∧ (∃ t ∈ valid_tables, t <:+: s) := by
  rw [validate_sql_eq] at h
  simp only [Bool.and_eq_true, Bool.not_eq_true'] at h
  obtain ⟨⟨⟨⟨-, -⟩, -⟩, hdang⟩, htab⟩ := h
  constructor
  · intro k hk hinf
    have : dangerous_keywords.any (fun k => isSubstr k (pyUpper s)) = true :=
      List.any_eq_true.mpr ⟨k, hk, (isSubstr_iff _ _).mpr hinf⟩
    rw [this] at hdang
    exact absurd hdang (by simp)
  · obtain ⟨t, htm, hti⟩ := List.any_eq_true.mp htab
    exact ⟨t, htm, (isSubstr_iff _ _).mp hti⟩

set_option maxHeartbeats 1000000 in
/-- Structural facts about a successful
`re.search(r'SELECT\s+(.*?)\s+FROM', ...)`: group 1 ends at `b`, a
whitespace character sits at `b`, a case-insensitive `SELECT` lies inside
`s.take b` and a case-insensitive `FROM` inside `s.drop b`. -/
theorem findEnhanceMatch_spec {s : Str} {a b : Nat}
    (h : findEnhanceMatch s = some (a, b)) :
    a ≤ b ∧
    (st "SELECT") <:+: pyUpper (s.take b) ∧
    (st "FROM") <:+: pyUpper (s.drop b) ∧
    (∃ c rest, s.drop b = c :: rest ∧ isPySpace c = true) := by
  obtain ⟨start, hsm, h1⟩ := findSome?_some h
  unfold tryMatchAt at h1
  split_ifs at h1 with hsel
  obtain ⟨dw, hdwm, h2⟩ := findSome?_some h1
  obtain ⟨g, hgm, h3⟩ := findSome?_some h2
  dsimp only at h3
  split_ifs at h3 with hany
  have hab : a = start + 6 + (wsRun s (start + 6) - dw) ∧
      b = start + 6 + (wsRun s (start + 6) - dw) + g := by
    have := Option.some_inj.mp h3
    exact ⟨(congrArg Prod.fst this).symm, (congrArg Prod.snd this).symm⟩
  obtain ⟨ha, hb⟩ := hab
  rw [← ha] at hb
  rw [← ha] at hany
  rw [show a + g = b from hb.symm] at hany
  have hdwlt : dw < wsRun s (start + 6) := List.mem_range.mp hdwm
  have hstart6b : start + 6 < b := by omega
  have hale : a ≤ b := by omega
  refine ⟨hale, ?_, ?_, ?_⟩
  · -- SELECT inside `s.take b`
    rw [selectAt] at hsel
    have hseleq : pyUpper ((s.drop start).take 6) = st "SELECT" := by
      have := (beq_iff_eq (a := pyUpper ((s.drop start).take 6)) (b := st "SELECT")).mp hsel
      exact this
    have hseg : ((s.take b).drop start).take 6 = (s.drop start).take 6 := by
      rw [List.drop_take]
      rw [List.take_take]
      congr 1
      omega
    have hinf : ((s.take b).drop start).take 6 <:+: s.take b :=
      List.IsInfix.trans (infixOfPre (takePre _ _)) (infixOfSuf (dropSuf _ _))
    rw [hseg] at hinf
    have := List.IsInfix.map Char.toUpper hinf
    rw [show List.map Char.toUpper ((s.drop start).take 6) = st "SELECT" from hseleq] at this
    exact this
  · -- FROM inside `s.drop b`
    obtain ⟨dw2, hdw2m, hfrom⟩ := List.any_eq_true.mp hany
    have hdw2lt : dw2 < wsRun s b := List.mem_range.mp hdw2m
    rw [fromAt] at hfrom
    have hfromeq : pyUpper ((s.drop (b + (wsRun s b - dw2))).take 4) = st "FROM" :=
      (beq_iff_eq).mp hfrom
    have hdd : s.drop (b + (wsRun s b - dw2)) = (s.drop b).drop (wsRun s b - dw2) := by
      rw [List.drop_drop]
    rw [hdd] at hfromeq
    have hinf : ((s.drop b).drop (wsRun s b - dw2)).take 4 <:+: s.drop b :=
      List.IsInfix.trans (infixOfPre (takePre _ _)) (infixOfSuf (dropSuf _ _))
    have := List.IsInfix.map Char.toUpper hinf
    rw [show List.map Char.toUpper (((s.drop b).drop (wsRun s b - dw2)).take 4) = st "FROM"
      from hfromeq] at this
    exact this
  · -- whitespace at position `b`
    obtain ⟨dw2, hdw2m, -⟩ := List.any_eq_true.mp hany
    have hws : 1 ≤ wsRun s b := by
      have := List.mem_range.mp hdw2m
      omega
    unfold wsRun at hws
    cases hd : s.drop b with
    | nil =>
      rw [hd] at hws
      simp at hws
    | cons c rest =>
      refine ⟨c, rest, rfl, ?_⟩
      rw [hd] at hws
      by_cases hc : isPySpace c = true
      · exact hc
      · rw [List.takeWhile_cons] at hws
        simp [hc] at hws

set_option maxHeartbeats 1000000 in
/-- Inserting a field-list suffix at a whitespace position of validated
SQL (what `_enhance_sql_for_profiles` does) preserves every
`_validate_sql` check. -/
theorem validate_insert {s adds : Str} {b : Nat}
    (h : validate_sql (some s) = true)
    (hws : ∃ c rest, s.drop b = c :: rest ∧ isPySpace c = true)
    (hsel : (st "SELECT") <:+: pyUpper (s.take b))
    (hfrom : (st "FROM") <:+: pyUpper (s.drop b))
    (hnd_adds : ND adds)
    (hadds_head : ∀ c, adds.head? = some c → isKwChar c.toUpper = false) :
    validate_sql (some (s.take b ++ (adds ++ s.drop b))) = true := by
  obtain ⟨c0, rest0, hdrop, hc0⟩ := hws
  obtain ⟨hnds, t, htm, hti⟩ := validate_components h
  have htfacts : t ≠ [] ∧ ∀ c ∈ t, isPySpace c = false := by
    simp only [valid_tables, List.mem_cons, List.not_mem_nil, or_false] at htm
    rcases htm with he | he | he | he <;> (subst he; exact ⟨by decide, by decide⟩)
  have hndt : ND (s.take b) := by
    intro k hk hinf
    refine hnds k hk ?_
    have : pyUpper (s.take b) = (pyUpper s).take b := List.map_take _ _ _
    rw [this] at hinf
    exact List.IsInfix.trans hinf (infixOfPre (takePre _ _))
  have hndd : ND (s.drop b) := by
    intro k hk hinf
    refine hnds k hk ?_
    have : pyUpper (s.drop b) = (pyUpper s).drop b := List.map_drop _ _ _
    rw [this] at hinf
    exact List.IsInfix.trans hinf (infixOfSuf (dropSuf _ _))
  have hdrop_head : ∀ c, (s.drop b).head? = some c → isKwChar c.toUpper = false := by
    intro c hc
    rw [hdrop] at hc
    rw [← Option.some_inj.mp hc]
    rw [toUpper_of_ws hc0]
    exact kwChar_ws_false hc0
  have hnd_tail : ND (adds ++ s.drop b) := nd_append hnd_adds hndd (Or.inr hdrop_head)
  have hnd_all : ND (s.take b ++ (adds ++ s.drop b)) := by
    apply nd_append hndt hnd_tail
    right
    intro c hc
    rw [List.head?_append] at hc
    cases hah : adds.head? with
    | some ca =>
      rw [hah] at hc
      simp only [Option.or] at hc
      rw [← Option.some_inj.mp hc]
      exact hadds_head ca hah
    | none =>
      rw [hah] at hc
      simp only [Option.or] at hc
      exact hdrop_head c hc
  rw [validate_sql_eq]
  have hne : (s.take b ++ (adds ++ s.drop b)).isEmpty = false := by
    rw [List.isEmpty_eq_false_iff_exists_mem]
    exact ⟨c0, by
      rw [hdrop]
      simp⟩
  have hselu : isSubstr (st "SELECT") (pyUpper (s.take b ++ (adds ++ s.drop b))) = true := by
    rw [isSubstr_iff, show pyUpper (s.take b ++ (adds ++ s.drop b)) =
      pyUpper (s.take b) ++ pyUpper (adds ++ s.drop b) from List.map_append _ _ _]
    exact substr_append_left _ hsel
  have hfromu : isSubstr (st "FROM") (pyUpper (s.take b ++ (adds ++ s.drop b))) = true := by
    rw [isSubstr_iff, show pyUpper (s.take b ++ (adds ++ s.drop b)) =
      pyUpper (s.take b) ++ (pyUpper adds ++ pyUpper (s.drop b)) from by
        simp [pyUpper]]
    exact substr_append_right _ (substr_append_right _ hfrom)
  have hdang : dangerous_keywords.any
      (fun k => isSubstr k (pyUpper (s.take b ++ (adds ++ s.drop b)))) = false := by
    cases hd : dangerous_keywords.any
        (fun k => isSubstr k (pyUpper (s.take b ++ (adds ++ s.drop b)))) with
    | false => rfl
    | true =>
      exfalso
      obtain ⟨k, hk, hki⟩ := List.any_eq_true.mp hd
      exact hnd_all k hk ((isSubstr_iff _ _).mp hki)
  have htany : valid_tables.any
      (fun t' => isSubstr t' (s.take b ++ (adds ++ s.drop b))) = true := by
    refine List.any_eq_true.mpr ⟨t, htm, (isSubstr_iff _ _).mpr ?_⟩
    have hsplit : s = s.take b ++ s.drop b := (List.take_append_drop b s).symm
    rw [hsplit] at hti
    rcases substr_append_cases hti with h1 | h2 | ⟨-, ⟨c, hch, hcp⟩⟩
    · exact substr_append_left _ h1
    · exact substr_append_right _ (substr_append_right _ h2)
    · exfalso
      rw [hdrop] at hch
      have : c = c0 := by
        simp at hch
        exact hch.symm
      subst this
      have := htfacts.2 c (hcp)
      rw [hc0] at this
      exact absurd this (by simp)
  rw [hne, hselu, hfromu, hdang, htany]
  rfl

set_option maxHeartbeats 1000000 in
/-- `_enhance_sql_for_profiles` preserves `_validate_sql` on any SQL text
that already passed it. -/
theorem validate_enhance {s : Str} (intent : Intent)
    (h : validate_sql (some s) = true) :
    validate_sql (some (enhance_sql_for_profiles s intent)) = true := by
  unfold enhance_sql_for_profiles
  dsimp only
  split_ifs with h1 h2
  · cases hm : findEnhanceMatch s with
    | none => exact h
    | some ab =>
      obtain ⟨a, b⟩ := ab
      dsimp only
      obtain ⟨hale, hsel, hfrom, hws⟩ := findEnhanceMatch_spec hm
      have hTake : s.take a ++ (s.drop a).take (b - a) = s.take b := by
        rw [← List.take_add]
        congr 1
        omega
      have hassoc : ∀ X A1 A2 D : Str,
          s.take a ++ X ++ A1 ++ A2 ++ D = (s.take a ++ X) ++ ((A1 ++ A2) ++ D) := by
        intro X A1 A2 D
        simp [List.append_assoc]
      rw [hassoc, hTake]
      split_ifs with hp hsal
      · exact validate_insert h hws hsel hfrom (nd_of_decide _ (by decide)) (by
          intro c hc
          have hc' : c = ',' := by
            rw [show (st ", pressure_dbar" ++ st ", salinity_psu").head? = some ','
              from by decide] at hc
            exact (Option.some_inj.mp hc).symm
          subst hc'
          decide)
      · exact validate_insert h hws hsel hfrom (nd_of_decide _ (by decide)) (by
          intro c hc
          have hc' : c = ',' := by
            rw [show ((st ", pressure_dbar" ++ ([] : Str))).head? = some ','
              from by decide] at hc
            exact (Option.some_inj.mp hc).symm
          subst hc'
          decide)
      · exact validate_insert h hws hsel hfrom (nd_of_decide _ (by decide)) (by
          intro c hc
          have hc' : c = ',' := by
            rw [show (([] : Str) ++ st ", salinity_psu").head? = some ','
              from by decide] at hc
            exact (Option.some_inj.mp hc).symm
          subst hc'
          decide)
      · exact validate_insert h hws hsel hfrom (nd_of_decide _ (by decide)) (by
          intro c hc
          rw [show (([] : Str) ++ ([] : Str)).head? = (Option.none : Option Char)
            from by decide] at hc
          exact absurd hc (by simp))
  · exact h
  · exact h

theorem enhance_response_with_viz_fields (r : ResultData) (i : Intent) :
    (enhance_response_with_viz r i).sql_query = r.sql_query ∧
    (enhance_response_with_viz r i).success = r.success := by
  unfold enhance_response_with_viz
  dsimp only
  split_ifs <;> exact ⟨rfl, rfl⟩

set_option maxHeartbeats 1000000 in
/-- Claim C1 core: every `success=True` response of
`ArgoSQLGenerator.generate_query` carries SQL that passes the
generator's own `_validate_sql` policy (nonempty, contains `SELECT` and
`FROM`, free of the seven mutating keywords, references a known table) —
on the profile-template path, the model-generated path (including the
post-validation field enhancement), and the template-fallback path
alike. -/
theorem generate_query_sql_safe (rag : Rag) (llm : LlmSql) (nowMinus : Nat → Str)
    (q sc : Str) (hnm : DateOk nowMinus)
    (hs : (generate_query rag llm nowMinus q sc).success = true) :
    validate_sql (generate_query rag llm nowMinus q sc).sql_query = true := by
  unfold generate_query at hs ⊢
  dsimp only [Bind.bind, Except.bind, Pure.pure, Except.pure] at hs ⊢
  split_ifs at hs ⊢ with h1 h2 h3
  · -- profile path
    obtain ⟨rd, hrd, hsucc, hconf, hqt, hviz, hval⟩ := generate_profile_query_spec hnm q
    rw [hrd] at hs ⊢
    dsimp only at hs ⊢
    exact hval
  · -- model path, validation passed
    cases hsq : (llm q (get_relevant_context rag q (analyze_query_intent q)) sc).sql_query with
    | none =>
      rw [hsq] at h3
      simp [validate_sql] at h3
    | some s =>
      dsimp only at hs ⊢
      rw [(enhance_response_with_viz_fields _ _).1]
      dsimp only
      rw [hsq] at h3
      exact validate_enhance _ h3
  · -- model path, validation failed: template fallback
    exact generate_template_fallback_spec hnm q hs
  · -- model failure: template fallback
    exact generate_template_fallback_spec hnm q hs

/-!
## Concrete oracles used by witnesses and counterexamples
-/

def rag0 : Rag := ⟨fun _ _ => [], fun _ _ _ => []⟩

def llm_fail : LlmSql := fun _ _ _ =>
  { success := some false, error := some (st "LLM unavailable"), sql_query := Option.none,
    explanation := some (st "LLM generation failed"), confidence := some 0 }

def llm_ok0 : LlmSql := fun _ _ _ =>
  { success := some true, sql_query := some (st "SELECT wmo_id FROM argo_profiles"),
    explanation := some (st "ok"), confidence := some (95/100) }

def nm0 : Nat → Str := fun _ => st "2025-09-01"

theorem nm0_dateok : DateOk nm0 := by
  intro d c hc
  have hall : (st "2025-09-01").all (fun x => x.isDigit || x == '-') = true := by decide
  exact List.all_eq_true.mp hall c hc

/-!
## Claims
-/

/-- C9.  Parsing the PostgreSQL array string `"{1.0,2.5,NULL,3}"` with
`_extract_array_data` yields `[1.0, 2.5, 3.0]`: `NULL` is dropped, the
remaining tokens are converted to numbers and order is preserved; and an
input that is neither a list nor a string still yields a list rather
than an error: a falsy value or a number (whose iteration raises a
`TypeError` that the function's own `except` catches) yields `[]`, and
a truthy dict is iterated over its keys, so `{"2": 1}` yields
`[2.0]`. -/
theorem extract_array_data_c9 :
    extract_array_data (PyVal.str (st "\x7b1.0,2.5,NULL,3\x7d")) = [1, 5/2, 3] ∧
    extract_array_data PyVal.none = [] ∧
    (∀ n : Int, extract_array_data (PyVal.int n) = []) ∧
    extract_array_data (PyVal.dict [(st "2", PyVal.int 1)]) = [2] := by
  refine ⟨by decide, by decide, ?_, by decide⟩
  intro n
  unfold extract_array_data array_tokens
  cases h : pyTruthy (PyVal.int n) <;> simp [h]

/-- The spec's §4.1 complex-indicator vocabulary (spatial, comparison,
aggregate and trajectory words), used to state claim C4. -/
def spec_complex_keywords : List Str :=
  [st "nearest", st "closest", st "nearby", st "within",
   st "compare", st "versus", st "difference", st "between",
   st "average", st "mean", st "statistics", st "trend",
   st "trajectory", st "path", st "route"]

/-- C4 counterexample: `"analyze the floats"` contains none of the
spec's complex-indicator keywords, yet the router selects the mcp path
(the code's indicator list also contains `analyze`, `summary`,
`around`, `vs` and two multi-region/BGC phrases). -/
theorem route_c4_counterexample :
    (spec_complex_keywords.all
      (fun k => !(isSubstr k (pyLower (st "analyze the floats"))))) = true ∧
    route_path (st "analyze the floats") = st "mcp" := by
  constructor <;> decide

/-- C4 as amended: any query containing a spec complex-indicator keyword
routes to mcp; a query containing none of the code's (larger) indicator
list and mentioning at most one named region routes to direct_sql.  The
classification is a pure function of the query text. -/
theorem route_c4_keyword_dispatch :
    (∀ q : Str, (∃ k ∈ spec_complex_keywords, k <:+: pyLower q) →
      route_path q = st "mcp") ∧
    (∀ q : Str, (∀ i ∈ mcp_indicators, ¬(i <:+: pyLower q)) →
      regions_mentioned (pyLower q) ≤ 1 →
      route_path q = st "direct_sql") := by
  constructor
  · rintro q ⟨k, hk, hinf⟩
    have hsub : ∀ k ∈ spec_complex_keywords, k ∈ mcp_indicators := by decide
    have hany : mcp_indicators.any (fun i => isSubstr i (pyLower q)) = true :=
      List.any_eq_true.mpr ⟨k, hsub k hk, (isSubstr_iff _ _).mpr hinf⟩
    unfold route_path analyze_query_complexity
    dsimp only
    rw [hany]
    rfl
  · intro q hnone hreg
    have hany : mcp_indicators.any (fun i => isSubstr i (pyLower q)) = false := by
      cases h : mcp_indicators.any (fun i => isSubstr i (pyLower q)) with
      | false => rfl
      | true =>
        obtain ⟨i, hi, hb⟩ := List.any_eq_true.mp h
        exact absurd ((isSubstr_iff _ _).mp hb) (hnone i hi)
    unfold route_path analyze_query_complexity
    dsimp only
    simp only [hany, Bool.false_eq_true, if_false]
    rw [if_neg (by omega : ¬regions_mentioned (pyLower q) > 1)]
    rfl

/-- C4 witness for the amended dispatch theorem: a keyword query routes
to mcp, a plain query to direct_sql. -/
theorem route_c4_keyword_dispatch_witness :
    route_path (st "show nearest floats") = st "mcp" ∧
    route_path (st "hello floats") = st "direct_sql" := by
  constructor
  · exact route_c4_keyword_dispatch.1 (st "show nearest floats")
      ⟨st "nearest", by decide, (isSubstr_iff _ _).mp (by decide)⟩
  · refine route_c4_keyword_dispatch.2 (st "hello floats") ?_ (by decide)
    intro i hi hinf
    have hb := (isSubstr_iff i (pyLower (st "hello floats"))).mpr hinf
    have hall : mcp_indicators.all
        (fun i => !(isSubstr i (pyLower (st "hello floats")))) = true := by decide
    have := List.all_eq_true.mp hall i hi
    rw [hb] at this
    exact absurd this (by simp)

/-- C5.  A query mentioning more than one named region (`arabian`,
`bengal`, `equator` markers) is classified complex and routed to the mcp
path, whatever other text it contains. -/
theorem route_c5_multi_region :
    ∀ q : Str,
      1 < regions_mentioned (pyLower q) →
      route_path q = st "mcp" := by
  intro q hsum
  unfold route_path analyze_query_complexity
  dsimp only
  cases hany : mcp_indicators.any (fun i => isSubstr i (pyLower q)) with
  | true => rfl
  | false =>
    simp only [Bool.false_eq_true, if_false]
    rw [if_pos (by omega : regions_mentioned (pyLower q) > 1)]
    rfl

/-- C5 witness: a two-region query with no other complex indicator. -/
theorem route_c5_multi_region_witness :
    route_path (st "floats of arabian sea plus bay of bengal") = st "mcp" :=
  route_c5_multi_region (st "floats of arabian sea plus bay of bengal") (by decide)

/-- C1 witness: the profile-template path at a concrete query, clock and
failing language model. -/
theorem generate_query_sql_safe_witness :
    DateOk nm0 ∧
    (generate_query rag0 llm_fail nm0 (st "temperature") []).success = true ∧
    validate_sql (generate_query rag0 llm_fail nm0 (st "temperature") []).sql_query = true :=
  ⟨nm0_dateok, by decide,
    generate_query_sql_safe rag0 llm_fail nm0 (st "temperature") [] nm0_dateok (by decide)⟩

/-- C2.  For a BGC-related intent that is neither profile/temperature nor
trajectory (and whose region, if any, is a known key), the template
fallback does NOT return a successful BGC-template response: the body
indexes `sql_templates` with the nonexistent key `"bgc_data"`, the
resulting `KeyError` is caught by the function's own `except`, and the
caller receives `success=False` with no SQL — the claimed local recovery
to a BGC template does not happen. -/
theorem bgc_fallback_keyerror_c2 (nowMinus : Nat → Str) (intent : Intent)
    (h1 : (intent.query_type == st "profile" ||
      intent.parameters.contains (st "temperature")) = false)
    (h2 : (intent.query_type == st "trajectory") = false)
    (h3 : (intent.float_type == some (st "BGC") ||
      [st "oxygen", st "chlorophyll", st "nitrate"].any
        (fun p => intent.parameters.contains p)) = true)
    (h4 : intent.region = Option.none ∨
      ∃ r cfg, intent.region = some r ∧ regionLookup r = some cfg) :
    (generate_template_fallback nowMinus intent).success = some false ∧
    (generate_template_fallback nowMinus intent).sql_query = Option.none ∧
    (generate_template_fallback nowMinus intent).error =
      some (st "Template fallback failed: \x27bgc_data\x27") := by
  unfold generate_template_fallback
  dsimp only [Bind.bind, Except.bind, Pure.pure, Except.pure]
  simp only [h1, h2, h3, Bool.false_eq_true, if_false, if_true]
  rcases h4 with h4 | ⟨r, cfg, h4, hcfg⟩ <;> rw [h4]
  · dsimp only [Bind.bind, Except.bind, Pure.pure, Except.pure]
    rw [show sql_templates (st "bgc_data") = Option.none from rfl]
    exact ⟨rfl, rfl, rfl⟩
  · dsimp only [Bind.bind, Except.bind, Pure.pure, Except.pure]
    rw [hcfg]
    dsimp only [Bind.bind, Except.bind, Pure.pure, Except.pure]
    rw [show sql_templates (st "bgc_data") = Option.none from rfl]
    exact ⟨rfl, rfl, rfl⟩

/-- C2 witness: the analyzer intent of `"show oxygen data"` (an oxygen
parameter, no profile/temperature/trajectory signal, no region). -/
theorem bgc_fallback_keyerror_c2_witness :
    (generate_template_fallback nm0 (analyze_query_intent (st "show oxygen data"))).success
        = some false ∧
    (generate_template_fallback nm0 (analyze_query_intent (st "show oxygen data"))).sql_query
        = Option.none ∧
    (generate_template_fallback nm0 (analyze_query_intent (st "show oxygen data"))).error =
      some (st "Template fallback failed: \x27bgc_data\x27") :=
  bgc_fallback_keyerror_c2 nm0 (analyze_query_intent (st "show oxygen data"))
    (by decide) (by decide) (by decide) (Or.inl (by decide))

/-- A storage oracle that answers every RPC with an empty result. -/
def db0 : Db := fun _ => Except.ok RpcData.no_data

/-- C3 counterexample: `"DROP TABLE argo_floats"` fails the SQL
Synthesizer's validation policy, yet `execute_validated_query` sends it
(suffixed with the LIMIT clause) to the storage client's
`execute_safe_sql` RPC — no client-side check rejects it. -/
theorem execute_validated_query_c3_counterexample :
    validate_sql (some (st "DROP TABLE argo_floats")) = false ∧
    (execute_validated_query db0 (st "DROP TABLE argo_floats") (st "general") 100).2 =
      [⟨st "execute_safe_sql", st "DROP TABLE argo_floats LIMIT 100"⟩] ∧
    (execute_validated_query db0 (st "DROP TABLE argo_floats") (st "general") 100).1.success
      = true := by
  refine ⟨by decide, ?_, ?_⟩ <;> rfl

/-- C3 as amended: `execute_validated_query` applies no safety check of
its own.  For every storage oracle, SQL text, query type and cap, it
issues exactly one RPC, to `execute_safe_sql`, carrying the input SQL
with the LIMIT suffix appended — whatever the SQL contains; safety rests
entirely on the server-side `execute_safe_sql` function. -/
theorem execute_validated_query_c3_forwards (db : Db) (sql_query query_type : Str)
    (max_results : Int) :
    (execute_validated_query db sql_query query_type max_results).2 =
      [⟨st "execute_safe_sql", sql_query ++ st " LIMIT " ++ intStr max_results⟩] := by
  unfold execute_validated_query
  dsimp only
  cases h : db ⟨st "execute_safe_sql", sql_query ++ st " LIMIT " ++ intStr max_results⟩ with
  | error e => rfl
  | ok d => cases d <;> rfl

def pv0 : ProcessViz := fun _ _ => []

def stx0 : SummaryText := fun _ _ => st "Data retrieved successfully."

def a0 : Analysis := { success := some true, query_type := some (st "general") }

def tr_ok1 : ToolResult := { success := true, tool_name := some (st "get_regional_stats") }

def tr_ok2 : ToolResult := { success := true, tool_name := some (st "get_float_trajectory") }

def tr_fail : ToolResult :=
  { success := false, tool_name := some (st "find_nearest_floats"),
    error := some (st "connection timeout") }

/-- C6.  `_synthesize_response` partitions the executed tool results by
their `success` flag: the envelope succeeds iff at least one result
succeeded; when all fail it fails with one error entry per executed tool
call; when some succeed, the merged payload, the `tools_used` list and
the raw results are built from the successful results only (the failed
results are excluded). -/
theorem synthesize_response_c6 (pv : ProcessViz) (stx : SummaryText) (a : Analysis)
    (trs : List ToolResult) :
    ((synthesize_response pv stx a trs).success = true ↔
      ∃ r ∈ trs, r.success = true) ∧
    ((∀ r ∈ trs, r.success = false) →
      (synthesize_response pv stx a trs).success = false ∧
      ∃ errs, (synthesize_response pv stx a trs).tool_errors = some errs ∧
        errs.length = trs.length) ∧
    ((∃ r ∈ trs, r.success = true) →
      (synthesize_response pv stx a trs).raw_tool_results =
        some (trs.filter (fun r => r.success)) ∧
      (synthesize_response pv stx a trs).tools_used =
        some ((trs.filter (fun r => r.success)).map (fun r => r.tool_name)) ∧
      (synthesize_response pv stx a trs).data =
        some (EnvData.tools (pv (trs.filter (fun r => r.success))
          (a.query_type.getD (st "general"))))) := by
  unfold synthesize_response
  dsimp only
  by_cases hemp : (trs.filter (fun r => r.success)).isEmpty = true
  · rw [if_pos hemp]
    have hnil := List.isEmpty_iff.mp hemp
    have hall : ∀ r ∈ trs, r.success = false := by
      intro r hr
      have := List.filter_eq_nil_iff.mp hnil r hr
      simpa using this
    refine ⟨?_, ?_, ?_⟩
    · constructor
      · intro h; exact absurd h (by simp)
      · rintro ⟨r, hr, hs⟩; rw [hall r hr] at hs; exact Bool.noConfusion hs
    · intro _
      exact ⟨rfl, trs.map (fun r => r.error), rfl, by simp⟩
    · rintro ⟨r, hr, hs⟩; rw [hall r hr] at hs; exact Bool.noConfusion hs
  · rw [if_neg hemp]
    have hne : trs.filter (fun r => r.success) ≠ [] := by
      intro hn; exact hemp (by rw [hn]; rfl)
    obtain ⟨r, hr⟩ := List.exists_mem_of_ne_nil _ hne
    have hmem := List.mem_filter.mp hr
    refine ⟨?_, ?_, ?_⟩
    · exact ⟨fun _ => ⟨r, hmem.1, hmem.2⟩, fun _ => rfl⟩
    · intro hall
      exact absurd hmem.2 (by rw [hall r hmem.1]; simp)
    · intro _; exact ⟨rfl, rfl, rfl⟩

/-- C6 witness: a 3-call batch with one failure keeps exactly the two
successful results, and a 2-call batch of failures reports 2 errors. -/
theorem synthesize_response_c6_witness :
    (synthesize_response pv0 stx0 a0 [tr_ok1, tr_fail, tr_ok2]).success = true ∧
    (synthesize_response pv0 stx0 a0 [tr_ok1, tr_fail, tr_ok2]).raw_tool_results =
      some [tr_ok1, tr_ok2] ∧
    (synthesize_response pv0 stx0 a0 [tr_fail, tr_fail]).success = false ∧
    ∃ errs, (synthesize_response pv0 stx0 a0 [tr_fail, tr_fail]).tool_errors = some errs ∧
      errs.length = 2 := by
  have hall : ∀ r ∈ [tr_fail, tr_fail], r.success = false := by
    intro r hr
    rcases List.mem_cons.mp hr with h | h
    · rw [h]; rfl
    · rw [List.mem_singleton.mp h]; rfl
  have hex : ∃ r ∈ [tr_ok1, tr_fail, tr_ok2], r.success = true :=
    ⟨tr_ok1, List.mem_cons_self tr_ok1 _, rfl⟩
  have t1 := (synthesize_response_c6 pv0 stx0 a0 [tr_ok1, tr_fail, tr_ok2]).1.mpr hex
  have t2 := (synthesize_response_c6 pv0 stx0 a0 [tr_ok1, tr_fail, tr_ok2]).2.2 hex
  have t3 := (synthesize_response_c6 pv0 stx0 a0 [tr_fail, tr_fail]).2.1 hall
  refine ⟨t1, ?_, t3.1, ?_⟩
  · rw [t2.1]; rfl
  · obtain ⟨errs, he, hl⟩ := t3.2
    exact ⟨errs, he, hl⟩

theorem except_ok_bind {α β : Type} {a : Except Str α} {f : α → Except Str β} {r : β}
    (h : a >>= f = Except.ok r) : ∃ x, a = Except.ok x ∧ f x = Except.ok r := by
  cases a with
  | error e => exact absurd h (by simp [Bind.bind, Except.bind])
  | ok x => exact ⟨x, rfl, by simpa [Bind.bind, Except.bind] using h⟩

theorem process_general_ok {rows : List Row} {md : SqlGenResult} {r : ProcResponse}
    (h : process_general_data rows md = Except.ok r) : r.success = true := by
  unfold process_general_data at h
  dsimp only [Pure.pure, Except.pure] at h
  injection h with h
  rw [← h]

theorem process_statistical_ok {rows : List Row} {md : SqlGenResult} {r : ProcResponse}
    (h : process_statistical_data rows md = Except.ok r) : r.success = true := by
  unfold process_statistical_data at h
  dsimp only at h
  obtain ⟨x, _, h⟩ := except_ok_bind h
  dsimp only [Pure.pure, Except.pure] at h
  injection h with h
  rw [← h]

theorem process_time_series_ok {rows : List Row} {md : SqlGenResult} {r : ProcResponse}
    (h : process_time_series_data rows md = Except.ok r) : r.success = true := by
  unfold process_time_series_data at h
  obtain ⟨x, _, h⟩ := except_ok_bind h
  dsimp only [Pure.pure, Except.pure] at h
  injection h with h
  rw [← h]

theorem process_profile_ok {rows : List Row} {md : SqlGenResult} {r : ProcResponse}
    (h : process_profile_data rows md = Except.ok r) : r.success = true := by
  unfold process_profile_data at h
  obtain ⟨x, _, h⟩ := except_ok_bind h
  obtain ⟨y, _, h⟩ := except_ok_bind h
  dsimp only [Pure.pure, Except.pure] at h
  injection h with h
  rw [← h]

theorem process_comparative_ok {rows : List Row} {md : SqlGenResult} {r : ProcResponse}
    (h : process_comparative_data rows md = Except.ok r) : r.success = true := by
  unfold process_comparative_data at h
  dsimp only at h
  obtain ⟨x, hx, h⟩ := except_ok_bind h
  dsimp only [Pure.pure, Except.pure] at h
  injection h with h
  rw [← h]
  show x.success = true
  exact process_profile_ok hx

theorem process_geographic_ok {rows : List Row} {md : SqlGenResult} {r : ProcResponse}
    (h : process_geographic_data rows md = Except.ok r) : r.success = true := by
  unfold process_geographic_data at h
  dsimp only at h
  obtain ⟨x, _, h⟩ := except_ok_bind h
  obtain ⟨a, b⟩ := x
  dsimp only [Pure.pure, Except.pure] at h
  injection h with h
  rw [← h]

theorem process_dispatch_ok {rows : List Row} {md : SqlGenResult} {r : ProcResponse}
    (h : process_dispatch rows md = Except.ok r) : r.success = true := by
  unfold process_dispatch at h
  dsimp only at h
  split_ifs at h with h1 h2 h3 h4 h5 h6
  · dsimp only [Pure.pure, Except.pure] at h
    injection h with h
    rw [← h]
    rfl
  · exact process_geographic_ok h
  · exact process_profile_ok h
  · exact process_time_series_ok h
  · exact process_comparative_ok h
  · exact process_statistical_ok h
  · exact process_general_ok h

/-- C7.  The Result Shaper: a query with zero result rows yields the
distinguishable `success=True` "No Results Found" envelope (never a
failure); and on every input the shaper either returns a `success=True`
envelope or the typed error envelope built by `_create_error_response`
from the caught exception's message — it never propagates an
exception. -/
theorem process_query_results_c7 (rows : List Row) (md : SqlGenResult) :
    (process_query_results [] md = create_empty_response md ∧
      (create_empty_response md).success = true ∧
      (create_empty_response md).data.title = st "No Results Found" ∧
      (create_empty_response md).data.query_results = []) ∧
    ((process_query_results rows md).success = true ∨
      ∃ e, process_query_results rows md = create_error_response e md ∧
        (create_error_response e md).success = false ∧
        (create_error_response e md).error = some e) := by
  refine ⟨⟨rfl, rfl, rfl, rfl⟩, ?_⟩
  unfold process_query_results
  cases hd : process_dispatch rows md with
  | ok r => exact Or.inl (process_dispatch_ok hd)
  | error e => exact Or.inr ⟨e, rfl, rfl, rfl⟩

def dbx0 : ExecQuery := fun _ => []

def ta_ok : ToolAnalysis := fun _ _ _ => a0

def tx0 : ToolExec := fun _ => Except.ok tr_ok1

/-- C8 counterexample: on the direct path with a failing generator
(a BGC query whose template fallback hits the `"bgc_data"` `KeyError`),
`_process_direct_sql` returns the generator's response unchanged — a
failure envelope with NO `execution_path` key at all, contradicting the
claimed invariant that every routed envelope carries `"direct_sql"` or
`"mcp"`. -/
theorem route_c8_counterexample :
    (route_query rag0 llm_fail nm0 dbx0 ta_ok tx0 pv0 stx0
        (st "show oxygen data") []).success = false ∧
    (route_query rag0 llm_fail nm0 dbx0 ta_ok tx0 pv0 stx0
        (st "show oxygen data") []).execution_path = Option.none := by
  constructor <;> rfl

/-- C8 as amended: on the direct path `tools_used` is never set, and
`execution_path="direct_sql"` is present exactly when SQL generation
succeeded (on generation failure the generator's response is passed
through with no `execution_path`); on the mcp path
`execution_path="mcp"` is present exactly when the tool analysis
succeeded (on analysis failure the analysis dict is passed through with
no `execution_path`). -/
theorem route_c8_execution_path (rag : Rag) (llm : LlmSql) (nowMinus : Nat → Str)
    (db : ExecQuery) (ta : ToolAnalysis) (tx : ToolExec) (pv : ProcessViz)
    (stx : SummaryText) (q sc : Str) :
    (route_path q = st "direct_sql" →
      (route_query rag llm nowMinus db ta tx pv stx q sc).tools_used = Option.none ∧
      ((route_query rag llm nowMinus db ta tx pv stx q sc).execution_path =
          some (st "direct_sql") ↔
        (generate_query rag llm nowMinus q sc).success = true)) ∧
    (route_path q = st "mcp" →
      ((route_query rag llm nowMinus db ta tx pv stx q sc).execution_path =
          some (st "mcp") ↔
        (ta q (rag.retrieve_context q 5) sc).success.getD false = true)) := by
  cases hc : analyze_query_complexity q == st "complex" with
  | true =>
    have hrp : route_path q = st "mcp" := by
      unfold route_path
      rw [hc]
      rfl
    constructor
    · intro hd
      rw [hrp] at hd
      exact absurd hd (by decide)
    · intro _
      unfold route_query
      simp only [hc, eq_self_iff_true, if_true]
      unfold process_query_with_tools
      dsimp only
      cases hs : (ta q (rag.retrieve_context q 5) sc).success.getD false with
      | false =>
        simp only [Bool.not_false, eq_self_iff_true, if_true]
        constructor
        · intro h
          rw [show (analysis_to_envelope (ta q (rag.retrieve_context q 5) sc)).execution_path
            = Option.none from rfl] at h
          exact absurd h (by simp)
        · intro h
          exact absurd h (by simp)
      | true =>
        simp only [Bool.not_true, Bool.false_eq_true, if_false]
        have hsy : (synthesize_response pv stx (ta q (rag.retrieve_context q 5) sc)
            ((ta q (rag.retrieve_context q 5) sc).tool_calls.map
              (execute_tool tx))).execution_path = some (st "mcp") := by
          unfold synthesize_response
          dsimp only
          split_ifs <;> rfl
        exact ⟨fun _ => trivial, fun _ => hsy⟩
  | false =>
    have hrp : route_path q = st "direct_sql" := by
      unfold route_path
      rw [hc]
      rfl
    constructor
    · intro _
      unfold route_query
      simp only [hc, Bool.false_eq_true, if_false]
      unfold process_direct_sql
      dsimp only
      cases hg : (generate_query rag llm nowMinus q sc).success with
      | true =>
        simp only [Bool.not_true, Bool.false_eq_true, if_false]
        exact ⟨by trivial, by trivial⟩
      | false =>
        simp only [Bool.not_false, eq_self_iff_true, if_true]
        refine ⟨rfl, ?_, ?_⟩
        · intro h
          rw [show (sqlgen_to_envelope (generate_query rag llm nowMinus q sc)).execution_path
            = Option.none from rfl] at h
          exact absurd h (by simp)
        · intro h
          exact absurd h (by simp)
    · intro hd
      rw [hrp] at hd
      exact absurd hd (by decide)

/-- C8 witness for the amended invariant, on the direct path with a
model whose SQL validates. -/
theorem route_c8_execution_path_witness :
    route_path (st "hello there") = st "direct_sql" ∧
    (route_query rag0 llm_ok0 nm0 dbx0 ta_ok tx0 pv0 stx0 (st "hello there") []).tools_used
        = Option.none ∧
    ((route_query rag0 llm_ok0 nm0 dbx0 ta_ok tx0 pv0 stx0
        (st "hello there") []).execution_path = some (st "direct_sql") ↔
      (generate_query rag0 llm_ok0 nm0 (st "hello there") []).success = true) := by
  have h := (route_c8_execution_path rag0 llm_ok0 nm0 dbx0 ta_ok tx0 pv0 stx0
    (st "hello there") []).1 (by decide)
  exact ⟨by decide, h.1, h.2⟩

/-- C10.  When the lowered query contains one of `profile`,
`temperature`, `vertical`, `depth`, `generate_query` takes the
deterministic profile-template path: the result is `success=True` with
confidence 0.9, and it is identical across runs with arbitrarily
different language-model oracles (and session contexts) — the output
does not depend on the language-model collaborator at all. -/
theorem generate_query_llm_independent_c10 (rag : Rag) (llm llm2 : LlmSql)
    (nowMinus : Nat → Str) (q sc sc2 : Str) (hnm : DateOk nowMinus)
    (hq : containsAny (pyLower q)
      [st "profile", st "temperature", st "vertical", st "depth"] = true) :
    generate_query rag llm nowMinus q sc = generate_query rag llm2 nowMinus q sc2 ∧
    (generate_query rag llm nowMinus q sc).success = true ∧
    (generate_query rag llm nowMinus q sc).confidence = 9/10 := by
  have hcond : ((analyze_query_intent q).query_type == st "profile" ||
      containsAny (pyLower q)
        [st "profile", st "temperature", st "vertical", st "depth"]) = true := by
    rw [hq, Bool.or_true]
  obtain ⟨rd, hrd, hsucc, hconf, _, _, _⟩ := generate_profile_query_spec hnm q
  refine ⟨?_, ?_, ?_⟩
  · unfold generate_query
    dsimp only [Bind.bind, Except.bind, Pure.pure, Except.pure]
    simp only [hcond, eq_self_iff_true, if_true]
  · unfold generate_query
    dsimp only [Bind.bind, Except.bind, Pure.pure, Except.pure]
    rw [if_pos hcond, hrd]
    dsimp only
    rw [hsucc]
    rfl
  · unfold generate_query
    dsimp only [Bind.bind, Except.bind, Pure.pure, Except.pure]
    rw [if_pos hcond, hrd]
    dsimp only
    rw [hconf]
    rfl

/-- C10 witness: the query `"temperature"` with a failing model on one
run and a succeeding model (and different session context) on the
other. -/
theorem generate_query_llm_independent_c10_witness :
    generate_query rag0 llm_fail nm0 (st "temperature") [] =
      generate_query rag0 llm_ok0 nm0 (st "temperature") (st "ctx") ∧
    (generate_query rag0 llm_fail nm0 (st "temperature") []).success = true ∧
    (generate_query rag0 llm_fail nm0 (st "temperature") []).confidence = 9/10 :=
  generate_query_llm_independent_c10 rag0 llm_fail llm_ok0 nm0 (st "temperature") []
    (st "ctx") nm0_dateok (by decide)
